/-
Verification development for the context relevance & fusion pipeline of the
Personal-Assistant repository.

The Python modules `performance_optimizer.py`, `relevance_scorer.py`,
`data_fusion.py` and `smart_context_analyzer.py` are shallowly embedded below.
Conventions of the embedding:

* Python `float` arithmetic is modelled with `ℚ` (all constants in the source
  are small decimal literals; no claim depends on floating-point rounding).
* `datetime.now()` is modelled by an explicit `now : ℚ` argument (seconds);
  all `datetime.now()` calls inside one public method are taken at the same
  instant.  `timedelta(seconds=k)` is the rational `k`.
* `dict` (insertion ordered) is modelled as an association list; assignment
  replaces in place, insertion appends, deletion filters.
* Python strings are Lean `String`s; `in` (substring), `startswith`,
  `str.lower`, `str.split()`, `str.strip()` and `re.findall(r'\b\w+\b', ·)`
  are modelled character-wise below (all inputs of interest are ASCII).
* `hashlib.md5(data.encode()).hexdigest()` is embedded as a full MD5
  implementation over `Nat` (32-bit words represented mod 2^32).
-/
import Mathlib

set_option maxRecDepth 200000
set_option linter.unusedVariables false


/-! ## Python string primitives -/

/-- `needle` occurs contiguously in `hay` (at any position). -/
def listInfix (needle : List Char) : List Char → Bool
  | [] => needle.isPrefixOf []
  | c :: cs => needle.isPrefixOf (c :: cs) || listInfix needle cs

/-- Python `needle in hay` on strings: contiguous substring test. -/
def pyContains (hay needle : String) : Bool :=
  listInfix needle.data hay.data

/-- Python `s.startswith(pre)`. -/
def pyStartsWith (s pre : String) : Bool :=
  pre.data.isPrefixOf s.data

/-- Python `s.lower()` (ASCII). -/
def pyLower (s : String) : String :=
  String.mk (s.data.map Char.toLower)

/-- Python `s.strip()` (ASCII whitespace). -/
def pyStrip (s : String) : String :=
  String.mk (((s.data.dropWhile Char.isWhitespace).reverse.dropWhile
    Char.isWhitespace).reverse)

/-- Maximal runs of characters satisfying `p`. -/
def charRuns (p : Char → Bool) : List Char → List (List Char)
  | [] => []
  | c :: cs =>
    let rest := charRuns p cs
    if p c then
      match cs with
      | [] => [[c]]
      | c' :: _ =>
        if p c' then
          match rest with
          | r :: rs => (c :: r) :: rs
          | [] => [[c]]
        else [c] :: rest
    else rest

/-- Python `s.split()` with no argument: the maximal non-whitespace runs. -/
def pySplitWs (s : String) : List String :=
  (charRuns (fun c => !c.isWhitespace) s.data).map String.mk

/-- Python `s[:n]` for strings. -/
def pyTake (s : String) (n : Nat) : String :=
  String.mk (s.data.take n)

/-- A `\w` character of `re` (ASCII): letter, digit or underscore. -/
def isWordChar (c : Char) : Bool :=
  c.isAlphanum || c == '_'

/-- Python `re.findall(r'\b\w+\b', s)`: the maximal word-character runs. -/
def pyFindWords (s : String) : List String :=
  (charRuns isWordChar s.data).map String.mk

/-- Cardinality of a Python `set(l)`. -/
def setCard (l : List String) : Nat :=
  l.dedup.length

/-- Cardinality of `set(a) & set(b)`. -/
def interCard (a b : List String) : Nat :=
  (a.dedup.filter (fun w => w ∈ b)).length

/-- Cardinality of `set(a) | set(b)`. -/
def unionCard (a b : List String) : Nat :=
  (a ++ b).dedup.length

/-- Membership of a word in a Python string set. -/
def setMem (w : String) (l : List String) : Bool :=
  l.contains w

/-! ## Kernel-computable rational arithmetic

Batteries marks `Rat.add`, `Rat.sub`, `Rat.mul` and `Rat.inv` as
irreducible, so terms built from `+`, `-`, `*`, `/` on `ℚ` do not reduce
inside the kernel.  The embedding therefore uses the following wrappers,
each proved equal to the corresponding field operation, so that concrete
runs of the model can be checked by `decide` while symbolic proofs rewrite
back to ordinary arithmetic. -/

def qadd (a b : ℚ) : ℚ := Rat.divInt (a.num * b.den + b.num * a.den) (a.den * b.den)

def qsub (a b : ℚ) : ℚ := Rat.divInt (a.num * b.den - b.num * a.den) (a.den * b.den)

def qmul (a b : ℚ) : ℚ := Rat.divInt (a.num * b.num) (a.den * b.den)

def qdiv (a b : ℚ) : ℚ := Rat.divInt (a.num * b.den) (a.den * b.num)

def qmin (a b : ℚ) : ℚ := if a ≤ b then a else b

def qsum (l : List ℚ) : ℚ := l.foldl qadd 0

/-! ## MD5 (`hashlib.md5(data.encode()).hexdigest()`) -/

/-- Reduce to a 32-bit word. -/
def w32 (n : Nat) : Nat := n % 4294967296

/-- 32-bit addition. -/
def wadd (a b : Nat) : Nat := (a + b) % 4294967296

/-- 32-bit complement (operand assumed < 2^32). -/
def wnot (a : Nat) : Nat := 4294967295 ^^^ a

/-- 32-bit left-rotate. -/
def rotl (x s : Nat) : Nat :=
  ((x <<< s) ||| (x >>> (32 - s))) % 4294967296

/-- MD5 round functions. -/
def md5F (b c d : Nat) : Nat := (b &&& c) ||| (wnot b &&& d)

def md5G (b c d : Nat) : Nat := (b &&& d) ||| (c &&& wnot d)

def md5H (b c d : Nat) : Nat := b ^^^ c ^^^ d

def md5I (b c d : Nat) : Nat := c ^^^ (b ||| wnot d)

/-- Per-step left-rotation amounts (RFC 1321). -/
def md5S : List Nat :=
  [7, 12, 17, 22, 7, 12, 17, 22, 7, 12, 17, 22, 7, 12, 17, 22,
   5, 9, 14, 20, 5, 9, 14, 20, 5, 9, 14, 20, 5, 9, 14, 20,
   4, 11, 16, 23, 4, 11, 16, 23, 4, 11, 16, 23, 4, 11, 16, 23,
   6, 10, 15, 21, 6, 10, 15, 21, 6, 10, 15, 21, 6, 10, 15, 21]

/-- Per-step additive constants `K[i] = floor(abs(sin(i+1)) * 2^32)` (RFC 1321). -/
def md5K : List Nat :=
  [0xd76aa478, 0xe8c7b756, 0x242070db, 0xc1bdceee,
   0xf57c0faf, 0x4787c62a, 0xa8304613, 0xfd469501,
   0x698098d8, 0x8b44f7af, 0xffff5bb1, 0x895cd7be,
   0x6b901122, 0xfd987193, 0xa679438e, 0x49b40821,
   0xf61e2562, 0xc040b340, 0x265e5a51, 0xe9b6c7aa,
   0xd62f105d, 0x02441453, 0xd8a1e681, 0xe7d3fbc8,
   0x21e1cde6, 0xc33707d6, 0xf4d50d87, 0x455a14ed,
   0xa9e3e905, 0xfcefa3f8, 0x676f02d9, 0x8d2a4c8a,
   0xfffa3942, 0x8771f681, 0x6d9d6122, 0xfde5380c,
   0xa4beea44, 0x4bdecfa9, 0xf6bb4b60, 0xbebfbc70,
   0x289b7ec6, 0xeaa127fa, 0xd4ef3085, 0x04881d05,
   0xd9d4d039, 0xe6db99e5, 0x1fa27cf8, 0xc4ac5665,
   0xf4292244, 0x432aff97, 0xab9423a7, 0xfc93a039,
   0x655b59c3, 0x8f0ccc92, 0xffeff47d, 0x85845dd1,
   0x6fa87e4f, 0xfe2ce6e0, 0xa3014314, 0x4e0811a1,
   0xf7537e82, 0xbd3af235, 0x2ad7d2bb, 0xeb86d391]

/-- UTF-8 encoding of one code point. -/
def charUtf8 (c : Char) : List Nat :=
  let n := c.toNat
  if n < 0x80 then [n]
  else if n < 0x800 then
    [0xC0 ||| (n >>> 6), 0x80 ||| (n &&& 0x3F)]
  else if n < 0x10000 then
    [0xE0 ||| (n >>> 12), 0x80 ||| ((n >>> 6) &&& 0x3F), 0x80 ||| (n &&& 0x3F)]
  else
    [0xF0 ||| (n >>> 18), 0x80 ||| ((n >>> 12) &&& 0x3F),
     0x80 ||| ((n >>> 6) &&& 0x3F), 0x80 ||| (n &&& 0x3F)]

/-- UTF-8 bytes of a string (`data.encode()`). -/
def strBytes (s : String) : List Nat :=
  s.data.flatMap charUtf8

/-- MD5 padding: append `0x80`, zero-pad to 56 mod 64, append 64-bit LE length. -/
def md5Pad (msg : List Nat) : List Nat :=
  let ml := 8 * msg.length
  let padLen := (55 + 64 - msg.length % 64) % 64
  let lenBytes := (List.range 8).map (fun i => ml / 256 ^ i % 256)
  msg ++ [0x80] ++ List.replicate padLen 0 ++ lenBytes

/-- Split a byte list into 64-byte chunks (fuel-based structural recursion;
the fuel `l.length` always suffices since each step consumes 64 bytes). -/
def chunksAux : Nat → List Nat → List (List Nat)
  | 0, _ => []
  | _, [] => []
  | Nat.succ n, l => l.take 64 :: chunksAux n (l.drop 64)

/-- Split a byte list into 64-byte chunks. -/
def chunks64 (l : List Nat) : List (List Nat) :=
  chunksAux l.length l

/-- The 16 little-endian 32-bit words of a 64-byte chunk. -/
def chunkWords (chunk : List Nat) : List Nat :=
  (List.range 16).map (fun j =>
    chunk.getD (4 * j) 0 + 256 * chunk.getD (4 * j + 1) 0 +
    65536 * chunk.getD (4 * j + 2) 0 + 16777216 * chunk.getD (4 * j + 3) 0)

/-- One MD5 step: rotate the registers, mixing in word `g` of the chunk. -/
def md5Step (m : List Nat) (st : Nat × Nat × Nat × Nat) (i : Nat) :
    Nat × Nat × Nat × Nat :=
  let (a, b, c, d) := st
  let (f, g) :=
    if i < 16 then (md5F b c d, i)
    else if i < 32 then (md5G b c d, (5 * i + 1) % 16)
    else if i < 48 then (md5H b c d, (3 * i + 5) % 16)
    else (md5I b c d, (7 * i) % 16)
  let tmp := wadd (wadd (wadd a f) (md5K.getD i 0)) (m.getD g 0)
  (d, wadd b (rotl tmp (md5S.getD i 0)), b, c)

/-- Process one 64-byte chunk. -/
def md5Chunk (st : Nat × Nat × Nat × Nat) (chunk : List Nat) :
    Nat × Nat × Nat × Nat :=
  let m := chunkWords chunk
  let (a0, b0, c0, d0) := st
  let (a, b, c, d) := (List.range 64).foldl (md5Step m) st
  (wadd a0 a, wadd b0 b, wadd c0 c, wadd d0 d)

/-- The four final MD5 state words of a byte message. -/
def md5Words (msg : List Nat) : Nat × Nat × Nat × Nat :=
  (chunks64 (md5Pad msg)).foldl md5Chunk
    (0x67452301, 0xefcdab89, 0x98badcfe, 0x10325476)

/-- Little-endian byte decomposition of a 32-bit word. -/
def toLEBytes (w : Nat) : List Nat :=
  [w % 256, w / 256 % 256, w / 65536 % 256, w / 16777216 % 256]

/-- The 16-byte MD5 digest. -/
def md5Bytes (msg : List Nat) : List Nat :=
  let (a, b, c, d) := md5Words msg
  toLEBytes a ++ toLEBytes b ++ toLEBytes c ++ toLEBytes d

/-- Lower-case hex digit. -/
def hexChar (n : Nat) : Char :=
  if n < 10 then Char.ofNat (48 + n) else Char.ofNat (87 + n)

/-- `bytes.hex()`: two lower-case hex digits per byte. -/
def bytesToHex (bs : List Nat) : List Char :=
  bs.flatMap (fun b => [hexChar (b / 16), hexChar (b % 16)])

/-- `hashlib.md5(s.encode()).hexdigest()`. -/
def md5Hex (s : String) : String :=
  String.mk (bytesToHex (md5Bytes (strBytes s)))

/-! ## `performance_optimizer.py` -/

/-- `CacheType` enum. -/
inductive CacheType
  | OCR_RESULT
  | WEB_SEARCH
  | CONTEXT_DECISION
deriving DecidableEq, Repr

/-- Payload of a cache entry (`data: any`): the code stores booleans
(context decisions) and strings (OCR / web results). -/
inductive CacheData
  | bool (b : Bool)
  | str (s : String)
deriving DecidableEq, Repr

/-- Python truthiness of a cached payload (a cached decision is returned
verbatim and used as a boolean by the caller). -/
def CacheData.truthy : CacheData → Bool
  | .bool b => b
  | .str s => s ≠ ""

/-- `CacheEntry` dataclass.  Times are seconds (`ℚ`); `ttl_seconds : int`. -/
structure CacheEntry where
  data : CacheData
  timestamp : ℚ
  access_count : Nat
  last_accessed : ℚ
  ttl_seconds : ℚ
deriving DecidableEq, Repr

/-- `PerformanceMetrics` dataclass. -/
structure PerformanceMetrics where
  ocr_calls_saved : Nat := 0
  web_calls_saved : Nat := 0
  cache_hits : Nat := 0
  cache_misses : Nat := 0
  total_response_time_saved : ℚ := 0
deriving DecidableEq, Repr

/-- Mutable state of a `PerformanceOptimizer` instance.  The cache dict is an
insertion-ordered association list. -/
structure OptState where
  cache : List (String × CacheEntry) := []
  ocr_call_times : List ℚ := []
  web_call_times : List ℚ := []
  metrics : PerformanceMetrics := {}
deriving DecidableEq, Repr

/-- A freshly constructed `PerformanceOptimizer()`. -/
def initOptState : OptState := {}

/-- `self.ocr_rate_limit`. -/
def ocr_rate_limit : Nat := 10

/-- `self.web_rate_limit`. -/
def web_rate_limit : Nat := 20

/-- `self.max_cache_size`. -/
def max_cache_size : Nat := 1000

/-- `self.min_query_length`. -/
def min_query_length : Nat := 3

/-- `self.similar_query_threshold`. -/
def similar_query_threshold : ℚ := Rat.divInt 8 10

/-- `self.default_ttl` (with `.get(cache_type, 300)` semantics; all three
types are present in the dict). -/
def default_ttl : CacheType → ℚ
  | .OCR_RESULT => 60
  | .WEB_SEARCH => 300
  | .CONTEXT_DECISION => 30

/-- Dict read: `self.cache[key]` / `key in self.cache`. -/
def dictGet (m : List (String × CacheEntry)) (k : String) : Option CacheEntry :=
  (m.find? (fun p => p.1 == k)).map (fun p => p.2)

/-- Dict write `self.cache[key] = v`: replaces in place, else appends. -/
def dictSet (m : List (String × CacheEntry)) (k : String) (v : CacheEntry) :
    List (String × CacheEntry) :=
  if m.any (fun p => p.1 == k) then
    m.map (fun p => if p.1 == k then (k, v) else p)
  else m ++ [(k, v)]

/-- Dict delete `del self.cache[key]`. -/
def dictDel (m : List (String × CacheEntry)) (k : String) :
    List (String × CacheEntry) :=
  m.filter (fun p => p.1 != k)

/-- `_generate_cache_key`. -/
def generate_cache_key (data : String) : String :=
  md5Hex data

/-- `_get_from_cache` (the `cache_type` argument is unused in the source). -/
def get_from_cache (now : ℚ) (key : String) (st : OptState) :
    Option CacheData × OptState :=
  match dictGet st.cache key with
  | none => (none, st)
  | some entry =>
    if entry.ttl_seconds < qsub now entry.timestamp then
      (none, { st with cache := dictDel st.cache key })
    else
      let entry' := { entry with
        access_count := entry.access_count + 1, last_accessed := now }
      (some entry.data, { st with cache := dictSet st.cache key entry' })

/-- `cleanup_cache`: drop expired entries, then (if still above
`max_cache_size`) drop the least-recently-accessed entries.  Python `sorted`
is stable, as is `List.mergeSort`. -/
def cleanup_cache (now : ℚ) (st : OptState) : OptState :=
  let kept := st.cache.filter (fun p => decide (qsub now p.2.timestamp ≤ p.2.ttl_seconds))
  if kept.length > max_cache_size then
    let sorted := List.insertionSort
      (fun a b => a.2.last_accessed ≤ b.2.last_accessed) kept
    let toRemove := (sorted.take (kept.length - max_cache_size)).map (fun p => p.1)
    { st with cache := kept.filter (fun p => !toRemove.contains p.1) }
  else
    { st with cache := kept }

/-- `_add_to_cache`.  The trigger `len(self.cache) > self.max_cache_size * 1.1`
compares an integer length against `1000 * 1.1`; for integers this is exactly
`length > 1100` (so the integer literal is used here). -/
def add_to_cache (now : ℚ) (key : String) (data : CacheData)
    (cache_type : CacheType) (st : OptState) : OptState :=
  let ttl := default_ttl cache_type
  let cache1 := dictSet st.cache key
    { data := data, timestamp := now, access_count := 0,
      last_accessed := now, ttl_seconds := ttl }
  let st1 := { st with cache := cache1 }
  if cache1.length > 1100 then cleanup_cache now st1 else st1

/-- `_check_ocr_rate_limit`. -/
def check_ocr_rate_limit (now : ℚ) (st : OptState) : Bool × OptState :=
  let times := st.ocr_call_times.filter (fun t => decide (qsub now 60 < t))
  if times.length ≥ ocr_rate_limit then
    (false, { st with ocr_call_times := times })
  else
    (true, { st with ocr_call_times := times ++ [now] })

/-- `_check_web_rate_limit`. -/
def check_web_rate_limit (now : ℚ) (st : OptState) : Bool × OptState :=
  let times := st.web_call_times.filter (fun t => decide (qsub now 60 < t))
  if times.length ≥ web_rate_limit then
    (false, { st with web_call_times := times })
  else
    (true, { st with web_call_times := times ++ [now] })

/-- The indicator list of `_has_screen_context_indicators`. -/
def screen_context_indicators : List String :=
  ["screen", "display", "window", "application", "app", "interface",
   "button", "menu", "dialog", "form", "text", "image", "visible",
   "showing", "displayed", "current", "this", "here", "that",
   "click", "select", "choose", "navigate", "scroll", "type"]

/-- `_has_screen_context_indicators`. -/
def has_screen_context_indicators (query : String) : Bool :=
  let query_lower := pyLower query
  screen_context_indicators.any (fun w => pyContains query_lower w)

/-- `generic_patterns` of `should_use_ocr`. -/
def generic_patterns : List String :=
  ["what is", "how to", "explain", "define", "tell me about",
   "why does", "when did", "where is", "who is"]

/-- The short `screen_indicators` list inside `should_use_ocr`. -/
def ocr_generic_screen_indicators : List String :=
  ["screen", "button", "menu", "window", "this", "here", "current"]

/-- `should_use_ocr`. -/
def should_use_ocr (now : ℚ) (query window_info : String) (force_check : Bool)
    (st : OptState) : (Bool × String) × OptState :=
  if force_check then ((true, "Force check requested"), st)
  else
    let (ok, st1) := check_ocr_rate_limit now st
    if !ok then
      ((false, "OCR rate limit exceeded"),
       { st1 with metrics := { st1.metrics with
           ocr_calls_saved := st1.metrics.ocr_calls_saved + 1 } })
    else if (pyStrip query).length < min_query_length then
      ((false, "Query too short for OCR"), st1)
    else
      let query_lower := pyLower query
      if generic_patterns.any (fun p => pyContains query_lower p) &&
         !(ocr_generic_screen_indicators.any (fun w => pyContains query_lower w)) then
        ((false, "Generic query without screen context indicators"), st1)
      else
        let cache_key := generate_cache_key ("ocr_decision_" ++ query ++ "_" ++ window_info)
        match get_from_cache now cache_key st1 with
        | (some cached, st2) =>
          ((cached.truthy, "Cached decision"),
           { st2 with metrics := { st2.metrics with
               cache_hits := st2.metrics.cache_hits + 1 } })
        | (none, st2) =>
          let shouldUse := has_screen_context_indicators query
          let reasoning := if shouldUse then "Screen context indicators found"
                           else "No screen context needed"
          ((shouldUse, reasoning),
           add_to_cache now cache_key (.bool shouldUse) .CONTEXT_DECISION st2)

/-- `web_indicators` of `should_use_web_search`. -/
def web_search_indicators : List String :=
  ["latest", "recent", "news", "current", "today", "now", "update",
   "what happened", "breaking", "announcement", "release",
   "price", "stock", "weather", "forecast", "schedule"]

/-- `local_indicators` of `should_use_web_search`. -/
def local_screen_indicators : List String :=
  ["this screen", "this window", "this application", "this button",
   "here on screen", "currently visible", "what i see"]

/-- `question_words` of `should_use_web_search`. -/
def question_words_opt : List String :=
  ["what", "how", "why", "when", "where", "who", "which"]

/-- Python `s[4:]`. -/
def dropChars (s : String) (n : Nat) : String :=
  String.mk (s.data.drop n)

/-- `_find_similar_cached_query`, iterating over the cache keys in insertion
order.  `cache_key[4:].split("_")[0]` extracts the "query part": the
characters before the first underscore. -/
def find_similar_from_keys (query_words : List String) : List String → Option String
  | [] => none
  | k :: ks =>
    if pyStartsWith k "web_" then
      let cached_query := String.mk ((dropChars k 4).data.takeWhile (fun c => c != '_'))
      let cached_words := pySplitWs (pyLower cached_query)
      if setCard query_words > 0 && setCard cached_words > 0 then
        let similarity : ℚ :=
          qdiv (interCard query_words cached_words : ℚ) (unionCard query_words cached_words : ℚ)
        if similarity ≥ similar_query_threshold then some cached_query
        else find_similar_from_keys query_words ks
      else find_similar_from_keys query_words ks
    else find_similar_from_keys query_words ks

/-- `_find_similar_cached_query`. -/
def find_similar_cached_query (query : String) (st : OptState) : Option String :=
  let query_words := pySplitWs (pyLower query)
  find_similar_from_keys query_words (st.cache.map (fun p => p.1))

/-- `should_use_web_search`. -/
def should_use_web_search (now : ℚ) (query : String) (force_check : Bool)
    (st : OptState) : (Bool × String) × OptState :=
  if force_check then ((true, "Force check requested"), st)
  else
    let (ok, st1) := check_web_rate_limit now st
    if !ok then
      ((false, "Web search rate limit exceeded"),
       { st1 with metrics := { st1.metrics with
           web_calls_saved := st1.metrics.web_calls_saved + 1 } })
    else if (pyStrip query).length < min_query_length then
      ((false, "Query too short for web search"), st1)
    else
      let query_lower := pyLower query
      if web_search_indicators.any (fun w => pyContains query_lower w) then
        ((true, "Time-sensitive or external information needed"), st1)
      else if local_screen_indicators.any (fun w => pyContains query_lower w) then
        ((false, "Local screen query - no web search needed"), st1)
      else
        match find_similar_cached_query query st1 with
        | some similar =>
          ((false, "Similar query recently cached: " ++ pyTake similar 50 ++ "..."),
           { st1 with metrics := { st1.metrics with
               cache_hits := st1.metrics.cache_hits + 1 } })
        | none =>
          let has_question := question_words_opt.any (fun w => pyContains query_lower w)
          if has_question && (pySplitWs query).length > 3 then
            ((true, "Complex question likely needs external information"), st1)
          else
            ((false, "Simple query - using AI knowledge only"), st1)

/-- `cache_web_result`.  `params_str` is the rendered
`str(sorted(search_params.items()))`, or `""` when `search_params` is falsy
(the only form the claims exercise). -/
def cache_web_result (now : ℚ) (query web_result params_str : String)
    (st : OptState) : OptState :=
  let cache_key := generate_cache_key ("web_" ++ query ++ "_" ++ params_str)
  add_to_cache now cache_key (.str web_result) .WEB_SEARCH st

/-- Search parameter dicts (`base_params` / `web_search_params`): the code
only ever reads or writes the keys `"timelimit"` and `"max_results"`. -/
structure SearchParams where
  timelimit : Option String := none
  max_results : Option Nat := none
deriving DecidableEq, Repr

/-- `optimize_web_search_params`. -/
def optimize_web_search_params (query : String) (base : SearchParams) :
    SearchParams :=
  let query_words := (pySplitWs query).length
  let mr :=
    if query_words ≤ 3 then min (base.max_results.getD 5) 3
    else if query_words ≤ 6 then min (base.max_results.getD 5) 5
    else min (base.max_results.getD 10) 8
  let ql := pyLower query
  let tl :=
    if pyContains ql "latest" || pyContains ql "recent" then "d"
    else if pyContains ql "news" then "w"
    else "m"
  { timelimit := some tl, max_results := some mr }

/-! ## `relevance_scorer.py` -/

/-- `ContentType` enum. -/
inductive ContentType
  | OCR_TEXT
  | WEB_RESULT
  | WINDOW_INFO
deriving DecidableEq, Repr

/-- `ContentType.value`. -/
def ContentType.value : ContentType → String
  | .OCR_TEXT => "ocr_text"
  | .WEB_RESULT => "web_result"
  | .WINDOW_INFO => "window_info"

/-- `RelevanceScore` dataclass. -/
structure RelevanceScore where
  total_score : ℚ
  keyword_score : ℚ
  semantic_score : ℚ
  context_score : ℚ
  freshness_score : ℚ
  confidence : ℚ
  explanation : String
deriving DecidableEq, Repr

/-- The `context_info` dict argument: `empty` is a falsy dict (`None`/`{}`),
`other` a truthy dict without the key `'window_info'`, `withWindow wi` a dict
whose `'window_info'` entry is `wi` (the only key the code reads). -/
inductive ContextInfo
  | empty
  | other
  | withWindow (wi : String)
deriving DecidableEq, Repr

/-- `self.action_keywords`. -/
def rs_action_keywords : List String :=
  ["click", "select", "choose", "press", "tap", "touch", "drag", "drop",
   "scroll", "swipe", "type", "enter", "input", "fill", "submit",
   "navigate", "go", "open", "close", "minimize", "maximize"]

/-- `self.ui_elements`. -/
def rs_ui_elements : List String :=
  ["button", "menu", "dropdown", "checkbox", "radio", "slider", "tab",
   "dialog", "popup", "modal", "form", "field", "textbox", "label",
   "icon", "image", "link", "hyperlink", "toolbar", "sidebar"]

/-- `self.screen_references`. -/
def rs_screen_references : List String :=
  ["screen", "display", "monitor", "window", "application", "app",
   "interface", "gui", "ui", "visible", "showing", "displayed",
   "current", "active", "open", "running", "this", "here", "that"]

/-- `self.information_keywords`. -/
def rs_information_keywords : List String :=
  ["what", "how", "why", "when", "where", "who", "which", "explain",
   "describe", "tell", "show", "help", "guide", "tutorial", "learn",
   "understand", "know", "find", "search", "lookup", "information"]

/-- `self.time_sensitive`. -/
def rs_time_sensitive : List String :=
  ["latest", "recent", "new", "current", "today", "now", "update",
   "breaking", "news", "announcement", "release", "fresh", "live"]

/-- `self.stop_words`. -/
def rs_stop_words : List String :=
  ["the", "a", "an", "and", "or", "but", "in", "on", "at", "to",
   "for", "of", "with", "by", "is", "are", "was", "were", "be",
   "been", "being", "have", "has", "had", "do", "does", "did",
   "will", "would", "could", "should", "may", "might", "can"]

/-- `set(re.findall(r'\b\w+\b', text)) - self.stop_words`. -/
def contentWordSet (text : String) : List String :=
  (pyFindWords text).dedup.filter (fun w => !rs_stop_words.contains w)

/-- `_calculate_keyword_relevance` (arguments already lower-cased). -/
def calculate_keyword_relevance (query content : String) (ct : ContentType) : ℚ :=
  let query_words := contentWordSet query
  let content_words := contentWordSet content
  if query_words.isEmpty then 0
  else
    let direct_matches := query_words.filter (fun w => content_words.contains w)
    let matchFrac : ℚ := qdiv (direct_matches.length : ℚ) (query_words.length : ℚ)
    let category_boost : ℚ :=
      match ct with
      | .OCR_TEXT =>
        if !(query_words.filter (fun w => rs_ui_elements.contains w)).isEmpty ||
           !(query_words.filter (fun w => rs_action_keywords.contains w)).isEmpty ||
           !(query_words.filter (fun w => rs_screen_references.contains w)).isEmpty
        then Rat.divInt 3 10 else 0
      | .WEB_RESULT =>
        if !(query_words.filter (fun w => rs_information_keywords.contains w)).isEmpty ||
           !(query_words.filter (fun w => rs_time_sensitive.contains w)).isEmpty
        then Rat.divInt 2 10 else 0
      | .WINDOW_INFO => 0
    let pairCount :=
      (query_words.filter (fun qw => qw.length > 3)).foldl
        (fun acc qw =>
          acc + (content_words.filter
            (fun cw => pyContains cw qw || pyContains qw cw)).length) 0
    let partialBonus : ℚ := qmin (qmul (pairCount : ℚ) (Rat.divInt 1 10)) (Rat.divInt 3 10)
    qmin (qadd (qadd matchFrac category_boost) partialBonus) 1

/-- `tech_concepts` of `_calculate_semantic_relevance`, in insertion order. -/
def rs_tech_concepts : List (String × List String) :=
  [("programming", ["code", "coding", "development", "software"]),
   ("python", ["programming", "script", "language", "code"]),
   ("web", ["browser", "internet", "online", "website"]),
   ("ai", ["artificial", "intelligence", "machine", "learning"]),
   ("save", ["file", "document", "storage", "disk"])]

/-- `_calculate_semantic_relevance` (arguments already lower-cased). -/
def calculate_semantic_relevance (query content : String) : ℚ :=
  let query_phrases :=
    ((pySplitWs query).filter (fun p => (pyStrip p).length > 2)).map pyStrip
  let phrase_score : ℚ :=
    qmin (qmul (query_phrases.countP (fun p => pyContains content p) : ℚ) (Rat.divInt 2 10))
      (Rat.divInt 6 10)
  let concept_score : ℚ :=
    qmin (qmul ((rs_tech_concepts.foldl (fun acc cp =>
      if pyContains query cp.1 then
        acc + (cp.2.countP (fun w => pyContains content w))
      else acc) 0 : Nat) : ℚ) (Rat.divInt 1 10)) (Rat.divInt 4 10)
  qadd phrase_score concept_score

/-- `re.search(r'active window: ([^-]+)', w)`: at the leftmost occurrence of
the literal, capture the maximal nonempty run of non-`'-'` characters. -/
def findAppName : List Char → Option (List Char)
  | [] => none
  | c :: cs =>
    if ("active window: ".data).isPrefixOf (c :: cs) then
      let cap := ((c :: cs).drop 15).takeWhile (fun ch => ch ≠ '-')
      if cap.isEmpty then findAppName cs else some cap
    else findAppName cs

/-- `_calculate_context_relevance` (query/content already lower-cased). -/
def calculate_context_relevance (query content : String) (ct : ContentType)
    (ci : ContextInfo) : ℚ :=
  match ci with
  | .empty => 0
  | _ =>
    let window_score : ℚ :=
      match ci with
      | .withWindow wi =>
        let wiLower := pyLower wi
        match findAppName wiLower.data with
        | some cap =>
          let app_name := pyLower (pyStrip (String.mk cap))
          qadd
            (if pyContains query app_name ||
                (pySplitWs app_name).any (fun w => pyContains query w)
             then Rat.divInt 3 10 else 0)
            (if pyContains content app_name then Rat.divInt 2 10 else 0)
        | none => 0
      | _ => 0
    let type_score : ℚ :=
      match ct with
      | .OCR_TEXT =>
        if (["this", "here", "current", "visible", "showing"]).any
            (fun w => pyContains query w) then Rat.divInt 4 10 else 0
      | .WEB_RESULT =>
        if (["what", "how", "why", "latest", "news", "information"]).any
            (fun w => pyContains query w) then Rat.divInt 3 10 else 0
      | .WINDOW_INFO => 0
    qmin (qadd window_score type_score) 1

/-- `_calculate_freshness_score` (`context_info` is unused in the source). -/
def calculate_freshness_score (ct : ContentType) : ℚ :=
  match ct with
  | .WEB_RESULT => Rat.divInt 8 10
  | .OCR_TEXT => 1
  | .WINDOW_INFO => Rat.divInt 5 10

/-- `_get_content_type_weights`: (keyword, semantic, context, freshness). -/
def get_content_type_weights (ct : ContentType) : ℚ × ℚ × ℚ × ℚ :=
  match ct with
  | .OCR_TEXT => (Rat.divInt 4 10, Rat.divInt 2 10, Rat.divInt 3 10, Rat.divInt 1 10)
  | .WEB_RESULT => (Rat.divInt 3 10, Rat.divInt 3 10, Rat.divInt 2 10, Rat.divInt 2 10)
  | .WINDOW_INFO => (Rat.divInt 4 10, Rat.divInt 3 10, Rat.divInt 2 10, Rat.divInt 1 10)

/-- `_calculate_confidence`. -/
def calculate_confidence (keyword_score semantic_score context_score : ℚ) : ℚ :=
  let non_zero := ([keyword_score, semantic_score, context_score]).filter
    (fun s => decide (s > Rat.divInt 1 10))
  if non_zero.length ≥ 2 then
    qmin (Rat.divInt 9 10) (qadd (qdiv (qsum non_zero) (non_zero.length : ℚ)) (Rat.divInt 2 10))
  else if non_zero.length = 1 then
    qmul (non_zero.headD 0) (Rat.divInt 7 10)
  else
    Rat.divInt 3 10

/-- `_generate_explanation`. -/
def generate_explanation (keyword_score semantic_score context_score
    freshness_score : ℚ) (ct : ContentType) : String :=
  let explanations :=
    (if keyword_score > Rat.divInt 1 2 then ["strong keyword matches"]
     else if keyword_score > Rat.divInt 2 10 then ["some keyword matches"] else []) ++
    (if semantic_score > Rat.divInt 3 10 then ["semantic relevance"] else []) ++
    (if context_score > Rat.divInt 3 10 then ["contextual relevance"] else []) ++
    (if freshness_score > Rat.divInt 7 10 then ["current information"] else [])
  if explanations.isEmpty then "Low relevance for " ++ ct.value
  else "Relevant due to: " ++ String.intercalate ", " explanations

/-- `score_content_relevance`. -/
def score_content_relevance (query content : String) (ct : ContentType)
    (ci : ContextInfo) : RelevanceScore :=
  if content = "" || query = "" then
    ⟨0, 0, 0, 0, 0, 0, "Empty content or query"⟩
  else
    let query_lower := pyLower query
    let content_lower := pyLower content
    let keyword_score := calculate_keyword_relevance query_lower content_lower ct
    let semantic_score := calculate_semantic_relevance query_lower content_lower
    let context_score := calculate_context_relevance query_lower content_lower ct ci
    let freshness_score := calculate_freshness_score ct
    let (wk, ws, wc, wf) := get_content_type_weights ct
    let total_score :=
      qadd (qadd (qadd (qmul keyword_score wk) (qmul semantic_score ws))
        (qmul context_score wc)) (qmul freshness_score wf)
    let confidence := calculate_confidence keyword_score semantic_score context_score
    let explanation := generate_explanation keyword_score semantic_score
      context_score freshness_score ct
    ⟨qmin total_score 1, keyword_score, semantic_score, context_score,
     freshness_score, confidence, explanation⟩

/-! ## `data_fusion.py` -/

/-- `RelevanceLevel` enum. -/
inductive RelevanceLevel
  | HIGH
  | MEDIUM
  | LOW
  | IRRELEVANT
deriving DecidableEq, Repr

/-- `ContextRelevance` dataclass. -/
structure ContextRelevance where
  level : RelevanceLevel
  score : ℚ
  reasoning : String
  key_matches : List String
deriving DecidableEq, Repr

/-- `FusedContext` dataclass. -/
structure FusedContext where
  primary_context : String
  supporting_context : String
  relevance_summary : String
  fusion_strategy : String
deriving DecidableEq, Repr

/-- Python `f"{x:.2f}"` for the nonnegative scores that reach it
(fixed-point rendering with round-half-even, approximating the float
formatting; no claim depends on these reasoning strings). -/
def formatQ2 (q : ℚ) : String :=
  let scaled : ℚ := qmul q 100
  let fl : Int := scaled.num / (scaled.den : Int)
  let frac : ℚ := qsub scaled (Rat.divInt fl 1)
  let r : Int :=
    if frac > Rat.divInt 1 2 then fl + 1
    else if frac < Rat.divInt 1 2 then fl
    else if fl % 2 = 0 then fl else fl + 1
  let n := r.toNat
  toString (n / 100) ++ "." ++ (if n % 100 < 10 then "0" else "") ++ toString (n % 100)

/-- `content_type_map.get(context_type, ContentType.OCR_TEXT)`. -/
def content_type_map (context_type : String) : ContentType :=
  if context_type = "screen" then .OCR_TEXT
  else if context_type = "web" then .WEB_RESULT
  else if context_type = "window" then .WINDOW_INFO
  else .OCR_TEXT

/-- `DataFusion.analyze_relevance` (`context_info or {}` keeps a falsy dict
falsy, which `ContextInfo.empty` already models). -/
def analyze_relevance (query context_data : String) (context_type : String)
    (ci : ContextInfo) : ContextRelevance :=
  if context_data = "" || pyStrip context_data = "" then
    ⟨.IRRELEVANT, 0, "No context data available", []⟩
  else
    let ct := content_type_map context_type
    let sr := score_content_relevance query context_data ct ci
    let level :=
      if sr.total_score ≥ Rat.divInt 7 10 then RelevanceLevel.HIGH
      else if sr.total_score ≥ Rat.divInt 4 10 then RelevanceLevel.MEDIUM
      else if sr.total_score ≥ Rat.divInt 2 10 then RelevanceLevel.LOW
      else RelevanceLevel.IRRELEVANT
    let reasoning :=
      sr.explanation ++ " (Total: " ++ formatQ2 sr.total_score ++
      ", Keywords: " ++ formatQ2 sr.keyword_score ++
      ", Semantic: " ++ formatQ2 sr.semantic_score ++
      ", Context: " ++ formatQ2 sr.context_score ++
      ", Confidence: " ++ formatQ2 sr.confidence ++ ")"
    ⟨level, sr.total_score, reasoning, []⟩

/-- Python `str.title()`. -/
def titleAux : Bool → List Char → List Char
  | _, [] => []
  | prevAlpha, c :: cs =>
    (if c.isAlpha then (if prevAlpha then c.toLower else c.toUpper) else c) ::
    titleAux c.isAlpha cs

/-- Python `str.title()`. -/
def pyTitle (s : String) : String :=
  String.mk (titleAux false s.data)

/-- `_format_context`. -/
def format_context (context_type context_data : String)
    (brief : Bool := false) : String :=
  if context_data = "" || pyStrip context_data = "" then ""
  else if context_type = "screen" then
    let cap := if brief then 500 else 1500
    "Screen Content (OCR):" ++ "\n" ++ pyTake context_data cap ++
      (if context_data.length > cap then "..." else "")
  else if context_type = "web" then
    let cap := if brief then 600 else 2000
    "Web Search Results:" ++ "\n" ++ pyTake context_data cap ++
      (if context_data.length > cap then "..." else "")
  else if context_type = "window" then
    "Active Window:" ++ "\n" ++ context_data
  else
    pyTitle context_type ++ " Context:" ++ "\n" ++ pyTake context_data 1000 ++
      (if context_data.length > 1000 then "..." else "")

/-- The `if supporting_context: supporting_context += "\n\n"` then
`supporting_context += piece` pattern. -/
def appendSupporting (supporting piece : String) : String :=
  (if supporting ≠ "" then supporting ++ "\n\n" else supporting) ++ piece

/-- `_generate_relevance_summary`. -/
def generate_relevance_summary (relevances : List ContextRelevance) : String :=
  if relevances.isEmpty then "No context sources analyzed"
  else
    let high_count := relevances.countP (fun r => r.level == .HIGH)
    let medium_count := relevances.countP (fun r => r.level == .MEDIUM)
    let low_count := relevances.countP (fun r => r.level == .LOW)
    let summary_parts :=
      (if high_count > 0 then [toString high_count ++ " high-relevance"] else []) ++
      (if medium_count > 0 then [toString medium_count ++ " medium-relevance"] else []) ++
      (if low_count > 0 then [toString low_count ++ " low-relevance"] else [])
    if !summary_parts.isEmpty then
      "Context analysis: " ++ String.intercalate ", " summary_parts ++ " sources"
    else "Context analysis: No relevant sources found"

/-- `fuse_contexts`.  Python `list.sort(key=..., reverse=True)` is a stable
sort that keeps ties in original order, i.e. a stable merge sort with
"`a` before `b` iff `b.score ≤ a.score`". -/
def fuse_contexts (query : String) (screen_text : String := "")
    (web_results : String := "") (window_info : String := "") : FusedContext :=
  let context_info : ContextInfo :=
    if window_info ≠ "" then .withWindow window_info else .empty
  let screen_relevance := analyze_relevance query screen_text "screen" context_info
  let web_relevance := analyze_relevance query web_results "web" context_info
  let window_relevance := analyze_relevance query window_info "window" context_info
  let contexts0 : List (String × String × ContextRelevance) :=
    [("screen", screen_text, screen_relevance),
     ("web", web_results, web_relevance),
     ("window", window_info, window_relevance)]
  let contexts := List.insertionSort
    (fun a b => b.2.2.score ≤ a.2.2.score) contexts0
  let high_relevance_contexts := contexts.filter (fun c => c.2.2.level == .HIGH)
  let medium_relevance_contexts := contexts.filter (fun c => c.2.2.level == .MEDIUM)
  let (primary_context, supporting_context, fusion_strategy) :=
    match high_relevance_contexts with
    | primary :: restHigh =>
      let primary_context := format_context primary.1 primary.2.1
      let supporting1 := restHigh.foldl
        (fun acc (c : String × String × ContextRelevance) =>
          appendSupporting acc (format_context c.1 c.2.1)) ""
      let supporting2 := (medium_relevance_contexts.take 1).foldl
        (fun acc (c : String × String × ContextRelevance) =>
          appendSupporting acc (format_context c.1 c.2.1 true)) supporting1
      (primary_context, supporting2,
       "Primary: " ++ primary.1 ++ " (high relevance), Supporting: " ++
       toString (high_relevance_contexts.length - 1 +
         min 1 medium_relevance_contexts.length) ++ " sources")
    | [] =>
      match medium_relevance_contexts with
      | primary :: restMedium =>
        let primary_context := format_context primary.1 primary.2.1
        let supporting := (restMedium.take 1).foldl
          (fun acc (c : String × String × ContextRelevance) =>
            appendSupporting acc (format_context c.1 c.2.1 true)) ""
        (primary_context, supporting,
         "Primary: " ++ primary.1 ++ " (medium relevance), Supporting: " ++
         toString (min 1 (medium_relevance_contexts.length - 1)) ++ " sources")
      | [] =>
        match contexts with
        | top :: _ =>
          if top.2.2.level ≠ .IRRELEVANT then
            (format_context top.1 top.2.1 true, "",
             "Limited context: " ++ top.1 ++ " (low relevance)")
          else
            ("No relevant context available for this query.", "",
             "No context fusion - insufficient relevance")
        | [] =>
          ("No relevant context available for this query.", "",
           "No context fusion - insufficient relevance")
  let relevance_summary := generate_relevance_summary (contexts.map (fun c => c.2.2))
  ⟨primary_context, supporting_context, relevance_summary, fusion_strategy⟩

/-! ## `smart_context_analyzer.py` -/

/-- `QueryType` enum. -/
inductive QueryType
  | SCREEN_RELATED
  | WEB_SEARCH_NEEDED
  | CURRENT_EVENTS
  | TECHNICAL_INFO
  | GENERAL_QUESTION
  | MIXED_CONTEXT
  | CONVERSATIONAL
deriving DecidableEq, Repr

/-- `ContextDecision` dataclass. -/
structure ContextDecision where
  use_ocr : Bool
  use_web : Bool
  query_type : QueryType
  confidence : ℚ
  reasoning : String
  web_search_params : Option SearchParams := none
deriving DecidableEq, Repr

/-- `self.screen_keywords` of `SmartContextAnalyzer`. -/
def sca_screen_keywords : List String :=
  ["screen", "display", "window", "application", "app", "interface", "ui", "gui",
   "button", "menu", "dialog", "form", "text", "image", "picture", "screenshot",
   "visible", "showing", "displayed", "current", "open", "running", "active",
   "click", "select", "choose", "navigate", "scroll", "type", "enter",
   "what do you see", "what is on", "describe what", "read this", "what does this say",
   "help me with this", "explain this", "what is this", "how do i", "where is",
   "find the", "locate the", "show me", "point to"]

/-- `self.web_keywords` of `SmartContextAnalyzer`. -/
def sca_web_keywords : List String :=
  ["latest", "recent", "current", "today", "news", "update", "new", "trending",
   "what happened", "breaking", "announcement", "release", "launch", "event",
   "price", "stock", "market", "weather", "forecast", "temperature",
   "search for", "find information", "look up", "research", "investigate",
   "compare", "review", "tutorial", "guide", "how to", "best practices",
   "recommendations", "suggestions", "alternatives", "options"]

/-- `self.time_indicators`. -/
def sca_time_indicators : List String :=
  ["today", "yesterday", "tomorrow", "this week", "this month", "this year",
   "now", "currently", "recent", "latest", "new", "updated", "fresh",
   "2024", "2025", "january", "february", "march", "april", "may", "june",
   "july", "august", "september", "october", "november", "december"]

/-- `self.technical_keywords`. -/
def sca_technical_keywords : List String :=
  ["programming", "code", "software", "development", "framework", "library",
   "algorithm", "database", "api", "documentation", "tutorial", "example",
   "syntax", "function", "method", "class", "variable", "error", "bug",
   "install", "setup", "configure", "deploy", "build", "compile"]

/-- `self.conversational_keywords`. -/
def sca_conversational_keywords : List String :=
  ["hello", "hi", "thanks", "thank you", "please", "sorry", "excuse me",
   "good morning", "good afternoon", "good evening", "goodbye", "bye",
   "how are you", "nice to meet", "pleasure", "welcome"]

/-- `_calculate_keyword_score`: fraction of the keyword set present in the
word set of the text (multi-word keywords can never match a single token). -/
def calculate_keyword_score (text : String) (keywords : List String) : ℚ :=
  let words := (pyFindWords text).dedup
  let matched := (words.filter (fun w => keywords.contains w)).length
  if keywords.isEmpty then 0 else qdiv (matched : ℚ) (keywords.length : ℚ)

/-- `_classify_query_type`. -/
def classify_query_type (screen_score web_score time_score technical_score
    conversational_score : ℚ) (has_question_words has_demonstratives
    has_current_reference : Bool) : QueryType × ℚ :=
  if conversational_score > Rat.divInt 3 10 then
    (.CONVERSATIONAL, Rat.divInt 9 10)
  else if screen_score > Rat.divInt 1 10 || (has_demonstratives && has_current_reference) then
    (.SCREEN_RELATED, qmin (Rat.divInt 9 10) (qadd (Rat.divInt 5 10) (qmul screen_score 2)))
  else if time_score > Rat.divInt 1 10 && web_score > Rat.divInt 1 20 then
    (.CURRENT_EVENTS, qmin (Rat.divInt 9 10) (qadd (Rat.divInt 6 10) (qadd time_score web_score)))
  else if technical_score > Rat.divInt 1 10 then
    (.TECHNICAL_INFO, qmin (Rat.divInt 8 10) (qadd (Rat.divInt 5 10) (qmul technical_score (Rat.divInt 3 2))))
  else if web_score > Rat.divInt 1 20 || time_score > Rat.divInt 1 20 then
    (.WEB_SEARCH_NEEDED, qmin (Rat.divInt 8 10) (qadd (Rat.divInt 4 10) (qmul (qadd web_score time_score) 2)))
  else if screen_score > Rat.divInt 1 20 && web_score > Rat.divInt 1 20 then
    (.MIXED_CONTEXT, Rat.divInt 7 10)
  else
    (.GENERAL_QUESTION, Rat.divInt 1 2)

/-- The `has_question_words` pattern words of `analyze_query`. -/
def sca_question_words : List String :=
  ["what", "how", "where", "when", "why", "which", "who"]

/-- The `has_demonstratives` pattern words of `analyze_query`. -/
def sca_demonstratives : List String :=
  ["this", "that", "these", "those", "here", "there"]

/-- The `has_current_reference` pattern words of `analyze_query`. -/
def sca_current_reference : List String :=
  ["current", "now", "present", "active", "open"]

/-- `_make_context_decision` (threads the optimizer state through its two
gate calls). -/
def make_context_decision (now : ℚ) (query_type : QueryType) (confidence : ℚ)
    (query_lower window_info : String) (has_live_ocr : Bool)
    (screen_score web_score time_score : ℚ) (st : OptState) :
    ContextDecision × OptState :=
  let ((suo, ocr_perf_reason), st1) := should_use_ocr now query_lower window_info false st
  let ((suw, web_perf_reason), st2) := should_use_web_search now query_lower false st1
  let (use_ocr, use_web, reasoning, web_search_params) :
      Bool × Bool × String × Option SearchParams :=
    match query_type with
    | .CONVERSATIONAL =>
      (false, false, "Conversational query - no external context needed", none)
    | .SCREEN_RELATED =>
      if suo then
        (true, false, "Screen-related query detected - using OCR to analyze current display", none)
      else
        (false, false, "Screen-related query but OCR skipped: " ++ ocr_perf_reason, none)
    | .CURRENT_EVENTS =>
      if suw then
        (false, true, "Current events query - using web search for latest information",
         some (optimize_web_search_params query_lower
           { timelimit := some "d", max_results := some 5 }))
      else
        (false, false, "Current events query but web search skipped: " ++ web_perf_reason, none)
    | .TECHNICAL_INFO =>
      if suw then
        (false, true, "Technical query - using web search for documentation and tutorials",
         some (optimize_web_search_params query_lower { max_results := some 3 }))
      else
        (false, false, "Technical query but web search skipped: " ++ web_perf_reason, none)
    | .WEB_SEARCH_NEEDED =>
      if suw then
        (false, true, "Query requires external information - using web search",
         some (optimize_web_search_params query_lower { max_results := some 5 }))
      else
        (false, false, "Query requires external info but web search skipped: " ++ web_perf_reason, none)
    | .MIXED_CONTEXT =>
      if suo && suw then
        (true, true, "Mixed context query - using both screen OCR and web search",
         some (optimize_web_search_params query_lower { max_results := some 3 }))
      else if suo then
        (true, false, "Mixed context query - using OCR only (web skipped: " ++
          web_perf_reason ++ ")", none)
      else if suw then
        (false, true, "Mixed context query - using web only (OCR skipped: " ++
          ocr_perf_reason ++ ")",
         some (optimize_web_search_params query_lower { max_results := some 5 }))
      else
        (false, false, "Mixed context query - using AI only (OCR: " ++ ocr_perf_reason ++
          ", Web: " ++ web_perf_reason ++ ")", none)
    | .GENERAL_QUESTION =>
      if has_live_ocr && screen_score > Rat.divInt 1 50 && suo then
        (true, false, "General query with live OCR available - including screen context", none)
      else if (web_score > Rat.divInt 1 50 || time_score > Rat.divInt 1 50) && suw then
        (false, true, "General query - using web search for comprehensive information",
         some (optimize_web_search_params query_lower { max_results := some 3 }))
      else
        (false, false, "General query - using AI knowledge only", none)
  let (use_ocr, reasoning) :=
    if (pyContains query_lower "help me with this" ||
        pyContains query_lower "what is this") && suo then
      (true, reasoning ++ " (Override: demonstrative reference detected)")
    else (use_ocr, reasoning)
  let (use_web, web_search_params, reasoning) :=
    if (["latest", "recent", "today", "news"]).any (fun w => pyContains query_lower w) then
      (true,
       (if web_search_params = none then some { timelimit := some "d" } else web_search_params),
       reasoning ++ " (Override: time-sensitive information needed)")
    else (use_web, web_search_params, reasoning)
  (⟨use_ocr, use_web, query_type, confidence, reasoning, web_search_params⟩, st2)

/-- `analyze_query`. -/
def analyze_query (now : ℚ) (query : String) (window_info : String := "")
    (has_live_ocr : Bool := false) (st : OptState := initOptState) :
    ContextDecision × OptState :=
  if query = "" || pyStrip query = "" then
    (⟨false, false, .CONVERSATIONAL, 0, "Empty query", none⟩, st)
  else
    let ((suo, ocr_reasoning), st1) := should_use_ocr now query window_info false st
    let ((suw, web_reasoning), st2) := should_use_web_search now query false st1
    if !suo && !suw then
      (⟨false, false, .GENERAL_QUESTION, Rat.divInt 8 10,
        "Performance optimization: " ++ ocr_reasoning ++ "; " ++ web_reasoning, none⟩, st2)
    else
      let query_lower := pyLower query
      let screen_score := calculate_keyword_score query_lower sca_screen_keywords
      let web_score := calculate_keyword_score query_lower sca_web_keywords
      let time_score := calculate_keyword_score query_lower sca_time_indicators
      let technical_score := calculate_keyword_score query_lower sca_technical_keywords
      let conversational_score := calculate_keyword_score query_lower sca_conversational_keywords
      let has_question_words := sca_question_words.any (fun w => pyContains query_lower w)
      let has_demonstratives := sca_demonstratives.any (fun w => pyContains query_lower w)
      let has_current_reference := sca_current_reference.any (fun w => pyContains query_lower w)
      let (query_type, confidence) := classify_query_type screen_score web_score
        time_score technical_score conversational_score
        has_question_words has_demonstratives has_current_reference
      make_context_decision now query_type confidence query_lower window_info
        has_live_ocr screen_score web_score time_score st2

/-! ## Harness definitions used by the theorems -/

/-- A client loop performing one `_add_to_cache` call per key. -/
def insertKeys (now : ℚ) (d : CacheData) (ct : CacheType) (keys : List String)
    (st : OptState) : OptState :=
  keys.foldl (fun s k => add_to_cache now k d ct s) st

/-- 1001 pairwise distinct cache keys. -/
def distinctKeys (n : Nat) : List String :=
  (List.range n).map (fun i => String.mk (List.replicate i 'a'))

/-- A sequence of `should_use_ocr` calls, each given as (time, query,
window_info), with `force_check=False`. -/
def runOcrCalls (calls : List (ℚ × String × String)) (st : OptState) : OptState :=
  calls.foldl (fun s c => (should_use_ocr c.1 c.2.1 c.2.2 false s).2) st

/-- The `fuse_contexts` call as a transformer of the process-wide mutable
state: `data_fusion.py` references only the stateless scorer, never the
optimizer singleton, so the translation neither reads nor writes `OptState`. -/
def fuse_contexts_sys (st : OptState) (query screen_text web_results window_info : String) :
    FusedContext × OptState :=
  (fuse_contexts query screen_text web_results window_info, st)

/-! ## C3: the screen-analysis end-to-end scenario -/

/-- The scenario query. -/
def c3_query : String := "What's this error message on my screen?"

/-- The scenario screen text: a Python traceback. -/
def c3_traceback : String := "\n            Python Error Console\n            Traceback (most recent call last):\n              File \"main.py\", line 15, in <module>\n                result = divide_numbers(10, 0)\n              File \"main.py\", line 8, in divide_numbers\n                return a / b\n            ZeroDivisionError: division by zero\n            "

@[simp] theorem qadd_eq (a b : ℚ) : qadd a b = a + b := by
  have ha : ((a.den : ℚ)) ≠ 0 := by exact_mod_cast a.den_nz
  have hb : ((b.den : ℚ)) ≠ 0 := by exact_mod_cast b.den_nz
  rw [qadd, Rat.divInt_eq_div]
  push_cast
  conv_rhs => rw [← Rat.num_div_den a, ← Rat.num_div_den b]
  rw [div_add_div _ _ ha hb]
  ring_nf

@[simp] theorem qsub_eq (a b : ℚ) : qsub a b = a - b := by
  have ha : ((a.den : ℚ)) ≠ 0 := by exact_mod_cast a.den_nz
  have hb : ((b.den : ℚ)) ≠ 0 := by exact_mod_cast b.den_nz
  rw [qsub, Rat.divInt_eq_div]
  push_cast
  conv_rhs => rw [← Rat.num_div_den a, ← Rat.num_div_den b]
  rw [div_sub_div _ _ ha hb]
  ring_nf

@[simp] theorem qmul_eq (a b : ℚ) : qmul a b = a * b := by
  rw [qmul, Rat.divInt_eq_div]
  push_cast
  conv_rhs => rw [← Rat.num_div_den a, ← Rat.num_div_den b]
  rw [div_mul_div_comm]

@[simp] theorem qdiv_eq (a b : ℚ) : qdiv a b = a / b := by
  rcases eq_or_ne b 0 with hb | hb
  · subst hb; simp [qdiv, Rat.divInt_eq_div]
  · have ha : ((a.den : ℚ)) ≠ 0 := by exact_mod_cast a.den_nz
    have hbd : ((b.den : ℚ)) ≠ 0 := by exact_mod_cast b.den_nz
    have hbn : ((b.num : ℚ)) ≠ 0 := by exact_mod_cast Rat.num_ne_zero.mpr hb
    rw [qdiv, Rat.divInt_eq_div]
    push_cast
    conv_rhs => rw [← Rat.num_div_den a, ← Rat.num_div_den b]
    field_simp

@[simp] theorem qmin_eq (a b : ℚ) : qmin a b = min a b := (min_def a b).symm

theorem qsum_eq (l : List ℚ) : qsum l = l.sum := by
  have h : ∀ (l : List ℚ) (acc : ℚ), l.foldl qadd acc = acc + l.sum := by
    intro l
    induction l with
    | nil => intro acc; simp
    | cons x xs ih => intro acc; simp [ih, qadd_eq]; ring
  simpa using h l 0

/-! ### MD5 digests never start with `"web_"` -/

theorem hexChar_ne_w {n : Nat} (h : n < 16) : hexChar n ≠ 'w' := by
  revert h
  revert n
  decide

theorem md5Bytes_head_lt (msg : List Nat) :
    ∃ b rest, md5Bytes msg = b :: rest ∧ b < 256 := by
  unfold md5Bytes
  rcases md5Words msg with ⟨a, b, c, d⟩
  refine ⟨a % 256, _, rfl, Nat.mod_lt _ (by norm_num)⟩

/-- The digest of any string is plain hex, hence never has the `"web_"` prefix. -/
theorem md5Hex_not_web (s : String) :
    pyStartsWith (md5Hex s) "web_" = false := by
  unfold pyStartsWith md5Hex
  obtain ⟨b, rest, hb, hlt⟩ := md5Bytes_head_lt (strBytes s)
  rw [hb]
  show ((['w', 'e', 'b', '_']).isPrefixOf
    (bytesToHex (b :: rest))) = false
  have hdiv : b / 16 < 16 := by omega
  simp only [bytesToHex, List.flatMap_cons, List.cons_append, List.isPrefixOf]
  have : ('w' == hexChar (b / 16)) = false := by
    have := hexChar_ne_w hdiv
    simp [beq_eq_false_iff_ne]
    exact fun h => this h.symm
  simp [this]

/-! ## Dictionary lemmas -/

theorem dictGet_dictSet (m : List (String × CacheEntry)) (k : String) (v : CacheEntry) :
    dictGet (dictSet m k v) k = some v := by
  unfold dictGet dictSet
  by_cases h : m.any (fun p => p.1 == k) = true
  · simp only [h, if_true]
    induction m with
    | nil => simp at h
    | cons q qs ih =>
      by_cases hq : q.1 == k
      · simp [List.find?, hq]
      · simp only [List.any_cons, hq, Bool.false_or] at h
        simpa [List.find?, hq] using ih h
  · rw [if_neg h]
    have hnone : m.find? (fun p => p.1 == k) = none := by
      rw [List.find?_eq_none]
      intro x hx hbeq
      exact h (List.any_eq_true.mpr ⟨x, hx, hbeq⟩)
    rw [List.find?_append, hnone]
    simp [List.find?]

theorem dictGet_dictDel (m : List (String × CacheEntry)) (k : String) :
    dictGet (dictDel m k) k = none := by
  unfold dictGet dictDel
  have : (m.filter (fun p => p.1 != k)).find? (fun p => p.1 == k) = none := by
    rw [List.find?_eq_none]
    intro x hx hbeq
    have := (List.mem_filter.mp hx).2
    simp [bne] at this
    exact this (by simpa using hbeq)
  rw [this]
  rfl

theorem dictSet_length (m : List (String × CacheEntry)) (k : String) (v : CacheEntry) :
    (dictSet m k v).length ≤ m.length + 1 := by
  unfold dictSet
  by_cases h : m.any (fun p => p.1 == k) = true <;> simp [h]

/-- Characterization of `_get_from_cache` on a present key. -/
theorem get_from_cache_of_some (now : ℚ) (k : String) (st : OptState)
    (e : CacheEntry) (h : dictGet st.cache k = some e) :
    get_from_cache now k st =
      if e.ttl_seconds < qsub now e.timestamp then
        (none, { st with cache := dictDel st.cache k })
      else
        (some e.data, { st with cache := (dictSet st.cache k
          { e with access_count := e.access_count + 1, last_accessed := now }) }) := by
  unfold get_from_cache
  rw [h]

/-- Characterization of `_get_from_cache` on an absent key. -/
theorem get_from_cache_of_none (now : ℚ) (k : String) (st : OptState)
    (h : dictGet st.cache k = none) :
    get_from_cache now k st = (none, st) := by
  unfold get_from_cache
  rw [h]

/-- Characterization of `_add_to_cache` when no cleanup is triggered. -/
theorem add_to_cache_small (now : ℚ) (k : String) (d : CacheData)
    (ct : CacheType) (st : OptState) (h : st.cache.length < 1100) :
    add_to_cache now k d ct st =
      { st with cache := (dictSet st.cache k
        ⟨d, now, 0, now, default_ttl ct⟩) } := by
  unfold add_to_cache
  rw [if_neg]
  have := dictSet_length st.cache k
    { data := d, timestamp := now, access_count := 0,
      last_accessed := now, ttl_seconds := default_ttl ct }
  omega

/-! ## C4 -/

/-- C4 counterexample: the claim asserts that a lookup at least 60 seconds
after insertion of a 60-second-TTL entry is a miss, but the expiry test is
strict (`>`), so at exactly 60 elapsed seconds the entry is still returned. -/
theorem c4_counterexample :
    ((60 : ℚ) - 0 ≥ 60) ∧
    (get_from_cache 60 "k" (add_to_cache 0 "k" (CacheData.str "v") .OCR_RESULT
      initOptState)).1 = some (CacheData.str "v") := by
  exact ⟨by norm_num, by decide⟩

/-- C4 (amended): an entry inserted with `ttl_seconds = 60` (an OCR-result
entry) is returned by a lookup immediately after insertion, and any lookup
strictly more than 60 seconds after the insertion timestamp is a miss that
also removes the entry. -/
theorem c4_amended (st : OptState) (k : String) (d : CacheData) (tIns now : ℚ)
    (hlen : st.cache.length < 1100) :
    (get_from_cache tIns k (add_to_cache tIns k d .OCR_RESULT st)).1 = some d ∧
    (tIns + 60 < now →
      (get_from_cache now k (add_to_cache tIns k d .OCR_RESULT st)).1 = none ∧
      dictGet ((get_from_cache now k (add_to_cache tIns k d .OCR_RESULT st)).2).cache
        k = none) := by
  have hadd := add_to_cache_small tIns k d .OCR_RESULT st hlen
  have hget : dictGet (add_to_cache tIns k d .OCR_RESULT st).cache k =
      some (⟨d, tIns, 0, tIns, default_ttl .OCR_RESULT⟩ : CacheEntry) := by
    rw [hadd]
    exact dictGet_dictSet _ _ _
  have httl : (⟨d, tIns, 0, tIns, default_ttl .OCR_RESULT⟩ : CacheEntry).ttl_seconds
      = 60 := rfl
  constructor
  · rw [get_from_cache_of_some tIns k _ _ hget, if_neg]
    rw [httl, qsub_eq]
    norm_num
  · intro hnow
    rw [get_from_cache_of_some now k _ _ hget, if_pos]
    · refine ⟨rfl, ?_⟩
      show dictGet (dictDel (add_to_cache tIns k d .OCR_RESULT st).cache k) k = none
      exact dictGet_dictDel _ _
    · rw [httl, qsub_eq]
      show (60 : ℚ) < now - tIns
      linarith

/-- C4 witness: the amended theorem applied at a concrete input. -/
theorem c4_amended_witness :
    (initOptState.cache.length < 1100) ∧
    ((get_from_cache 0 "k" (add_to_cache 0 "k" (CacheData.str "v") .OCR_RESULT
        initOptState)).1 = some (CacheData.str "v") ∧
     ((0 : ℚ) + 60 < 61 →
       (get_from_cache 61 "k" (add_to_cache 0 "k" (CacheData.str "v") .OCR_RESULT
         initOptState)).1 = none ∧
       dictGet ((get_from_cache 61 "k" (add_to_cache 0 "k" (CacheData.str "v")
         .OCR_RESULT initOptState)).2).cache "k" = none)) :=
  ⟨by decide, c4_amended initOptState "k" (CacheData.str "v") 0 61 (by decide)⟩

/-! ## C8 -/

/-- C8 counterexample: for a whitespace-only query the guard `if not content
or not query` does not fire, and a web result still gets the freshness
contribution, so the claimed all-zero result is wrong for blank (as opposed
to empty) inputs. -/
theorem c8_counterexample :
    (pyStrip "   " = "") ∧
    (score_content_relevance "   " "x" .WEB_RESULT .empty).total_score = Rat.divInt 4 25 ∧
    (score_content_relevance "   " "x" .WEB_RESULT .empty).confidence = Rat.divInt 3 10 ∧
    (score_content_relevance "   " "x" .WEB_RESULT .empty).explanation ≠
      "Empty content or query" := by
  refine ⟨by decide, by decide, by decide, by decide⟩

/-- C8 (amended): for every content type and context info, whenever either
string is empty (`""`, the falsy case the code actually tests),
`score_content_relevance` returns the all-zero score with explanation
"Empty content or query" and does not raise. -/
theorem c8_amended (query content : String) (ct : ContentType) (ci : ContextInfo)
    (h : query = "" ∨ content = "") :
    score_content_relevance query content ct ci =
      ⟨0, 0, 0, 0, 0, 0, "Empty content or query"⟩ := by
  unfold score_content_relevance
  rcases h with h | h <;> simp [h]

/-- C8 witness: the amended theorem applied at a concrete input. -/
theorem c8_amended_witness :
    (("" : String) = "" ∨ ("x" : String) = "") ∧
    score_content_relevance "" "x" .OCR_TEXT .empty =
      ⟨0, 0, 0, 0, 0, 0, "Empty content or query"⟩ :=
  ⟨Or.inl rfl, c8_amended "" "x" .OCR_TEXT .empty (Or.inl rfl)⟩

/-! ## C1 -/

/-- C1: the claim says a query whose word set is ≥0.8-Jaccard-similar to a
previously cached web query makes `should_use_web_search` return `False`
citing the cached query.  In the code every cache key is an MD5 hex digest,
so the `startswith("web_")` test in `_find_similar_cached_query` never
matches and the branch is dead: after caching a web result for
"how do pandas dataframes merge columns", the 6/7-similar query below is
still answered `True` with the default-branch reason. -/
theorem c1_code_evaluation :
    (should_use_web_search 0 "how do pandas dataframes merge columns fast" false
      (cache_web_result 0 "how do pandas dataframes merge columns" "result" ""
        initOptState)).1 =
      (true, "Complex question likely needs external information") ∧
    pyStartsWith (generate_cache_key ("web_" ++ "how do pandas dataframes merge columns" ++ "_"))
      "web_" = false ∧
    qdiv (interCard (pySplitWs (pyLower "how do pandas dataframes merge columns fast"))
               (pySplitWs (pyLower "how do pandas dataframes merge columns")))
         (unionCard (pySplitWs (pyLower "how do pandas dataframes merge columns fast"))
               (pySplitWs (pyLower "how do pandas dataframes merge columns"))) ≥
      similar_query_threshold := by
  refine ⟨by decide, md5Hex_not_web _, by decide⟩

/-! ## C2 -/

/-- C2: the claim (and the code's own comment "but respect performance
limits") says the `latest/recent/today/news` override forces `use_web=true`
only when `should_use_web_search` granted the call.  With 19 web calls
already in the rate window, the gate call inside `_make_context_decision`
denies web search (its denial is quoted in the reasoning), yet the override
still sets `use_web := true`. -/
theorem c2_code_evaluation :
    ((analyze_query 0 "latest news today" "" false
        { initOptState with web_call_times := List.replicate 19 0 }).1.use_web = true) ∧
    ((analyze_query 0 "latest news today" "" false
        { initOptState with web_call_times := List.replicate 19 0 }).1.reasoning =
      "Query requires external info but web search skipped: Web search rate limit exceeded (Override: time-sensitive information needed)") ∧
    ((analyze_query 0 "latest news today" "" false
        { initOptState with web_call_times := List.replicate 19 0 }).1.web_search_params =
      some { timelimit := some "d", max_results := none }) := by
  refine ⟨by decide, by decide, by decide⟩

/-! ## C9 -/

/-- C9: `fuse_contexts` is a pure, deterministic function of its four string
arguments.  In the embedding the process-wide mutable state is the optimizer
state; `data_fusion.py` (and the stateless scorer it delegates to) neither
reads nor writes it, so the system-level call leaves the state unchanged,
its result does not depend on the state, and a repeated call with identical
arguments returns an identical `FusedContext`. -/
theorem c9_fuse_contexts_pure (st : OptState)
    (query screen_text web_results window_info : String) :
    (fuse_contexts_sys st query screen_text web_results window_info).2 = st ∧
    (fuse_contexts_sys ((fuse_contexts_sys st query screen_text web_results
        window_info).2) query screen_text web_results window_info).1 =
      (fuse_contexts_sys st query screen_text web_results window_info).1 ∧
    (∀ st' : OptState,
      (fuse_contexts_sys st' query screen_text web_results window_info).1 =
      (fuse_contexts_sys st query screen_text web_results window_info).1) :=
  ⟨rfl, rfl, fun _ => rfl⟩

/-! ## C10 -/

/-- The classification cascade can never produce `MIXED_CONTEXT`: its guard
requires `web_score > 0.05`, but then the earlier `WEB_SEARCH_NEEDED` rule
(`web_score > 0.05 or time_score > 0.05`) already fired. -/
theorem classify_ne_mixed (screen_score web_score time_score technical_score
    conversational_score : ℚ) (hq hd hc : Bool) :
    (classify_query_type screen_score web_score time_score technical_score
      conversational_score hq hd hc).1 ≠ QueryType.MIXED_CONTEXT := by
  unfold classify_query_type
  split_ifs with h1 h2 h3 h4 h5 h6 <;> try simp
  all_goals
    simp only [Bool.or_eq_true, decide_eq_true_eq, not_or] at h5
    simp only [Bool.and_eq_true, decide_eq_true_eq] at h6
    exact absurd h6.2 h5.1

/-- Helper: `_make_context_decision` returns the query type it was given. -/
theorem mcd_query_type (now : ℚ) (qt : QueryType) (conf : ℚ)
    (ql wi : String) (hlo : Bool) (s w t : ℚ) (st : OptState) :
    (make_context_decision now qt conf ql wi hlo s w t st).1.query_type = qt := by
  unfold make_context_decision
  rcases h1 : should_use_ocr now ql wi false st with ⟨⟨suo, r1⟩, st1⟩
  rcases h2 : should_use_web_search now ql false st1 with ⟨⟨suw, r2⟩, st2⟩
  simp only [h1, h2]

/-- C10: `analyze_query` never returns a decision with query type
`MIXED_CONTEXT`: the `WEB_SEARCH_NEEDED` rule is checked before the
`MIXED_CONTEXT` rule and subsumes its guard, so the branch is unreachable
for every input and every optimizer state. -/
theorem c10_no_mixed_context :
    (∀ (screen_score web_score time_score technical_score conversational_score : ℚ)
       (hq hd hc : Bool),
      (classify_query_type screen_score web_score time_score technical_score
        conversational_score hq hd hc).1 ≠ QueryType.MIXED_CONTEXT) ∧
    (∀ (now : ℚ) (query window_info : String) (has_live_ocr : Bool) (st : OptState),
      (analyze_query now query window_info has_live_ocr st).1.query_type ≠
        QueryType.MIXED_CONTEXT) := by
  refine ⟨classify_ne_mixed, ?_⟩
  intro now query wi hlo st
  unfold analyze_query
  split
  · simp
  · rcases h1 : should_use_ocr now query wi false st with ⟨⟨suo, r1⟩, st1⟩
    rcases h2 : should_use_web_search now query false st1 with ⟨⟨suw, r2⟩, st2⟩
    simp only [h1, h2]
    split
    · simp
    · rcases hcl : classify_query_type
        (calculate_keyword_score (pyLower query) sca_screen_keywords)
        (calculate_keyword_score (pyLower query) sca_web_keywords)
        (calculate_keyword_score (pyLower query) sca_time_indicators)
        (calculate_keyword_score (pyLower query) sca_technical_keywords)
        (calculate_keyword_score (pyLower query) sca_conversational_keywords)
        (sca_question_words.any (fun w => pyContains (pyLower query) w))
        (sca_demonstratives.any (fun w => pyContains (pyLower query) w))
        (sca_current_reference.any (fun w => pyContains (pyLower query) w))
        with ⟨qt, conf⟩
      simp only [hcl]
      have h := classify_ne_mixed
        (calculate_keyword_score (pyLower query) sca_screen_keywords)
        (calculate_keyword_score (pyLower query) sca_web_keywords)
        (calculate_keyword_score (pyLower query) sca_time_indicators)
        (calculate_keyword_score (pyLower query) sca_technical_keywords)
        (calculate_keyword_score (pyLower query) sca_conversational_keywords)
        (sca_question_words.any (fun w => pyContains (pyLower query) w))
        (sca_demonstratives.any (fun w => pyContains (pyLower query) w))
        (sca_current_reference.any (fun w => pyContains (pyLower query) w))
      rw [hcl] at h
      simpa only [mcd_query_type] using h

/-! ## C7 -/

theorem divInt_as_div (a b : ℤ) : Rat.divInt a b = (a : ℚ) / (b : ℚ) :=
  Rat.divInt_eq_div a b

theorem keyword_relevance_bounds (q c : String) (ct : ContentType) :
    0 ≤ calculate_keyword_relevance q c ct ∧ calculate_keyword_relevance q c ct ≤ 1 := by
  rcases ct <;>
  · simp only [calculate_keyword_relevance]
    split
    · norm_num
    · simp only [qmin_eq, qadd_eq, qmul_eq, qdiv_eq, divInt_as_div]
      constructor
      · refine le_min ?_ zero_le_one
        (try split_ifs) <;> positivity
      · exact min_le_right _ _

theorem semantic_relevance_bounds (q c : String) :
    0 ≤ calculate_semantic_relevance q c ∧ calculate_semantic_relevance q c ≤ 1 := by
  simp only [calculate_semantic_relevance, qmin_eq, qadd_eq, qmul_eq, divInt_as_div]
  constructor
  · have h1 : (0:ℚ) ≤ (((pySplitWs q).filter (fun p => (pyStrip p).length > 2)).map pyStrip
        |>.countP (fun p => pyContains c p) : ℚ) * ((2:ℚ)/(10:ℚ)) := by positivity
    refine add_nonneg (le_min h1 (by norm_num)) (le_min ?_ (by norm_num))
    positivity
  · have h1 := min_le_right (((((pySplitWs q).filter (fun p => (pyStrip p).length > 2)).map
      pyStrip).countP (fun p => pyContains c p) : ℚ) * ((2:ℚ)/(10:ℚ))) ((6:ℚ)/(10:ℚ))
    have h2 := min_le_right (((rs_tech_concepts.foldl (fun acc cp =>
      if pyContains q cp.1 then acc + (cp.2.countP (fun w => pyContains c w))
      else acc) 0 : Nat) : ℚ) * ((1:ℚ)/(10:ℚ))) ((4:ℚ)/(10:ℚ))
    linarith

theorem context_relevance_bounds (q c : String) (ct : ContentType) (ci : ContextInfo) :
    0 ≤ calculate_context_relevance q c ct ci ∧ calculate_context_relevance q c ct ci ≤ 1 := by
  rcases ci with _ | _ | wi
  · simp only [calculate_context_relevance]
    norm_num
  · simp only [calculate_context_relevance, qmin_eq, qadd_eq, divInt_as_div]
    rcases ct <;>
    · constructor
      · refine le_min ?_ zero_le_one
        (try split_ifs) <;> norm_num
      · exact min_le_right _ _
  · simp only [calculate_context_relevance]
    rcases hf : findAppName (pyLower wi).data with _ | cap <;>
      simp only [hf, qmin_eq, qadd_eq, divInt_as_div] <;> rcases ct <;>
    · constructor
      · refine le_min ?_ zero_le_one
        (try split_ifs) <;> norm_num
      · exact min_le_right _ _

theorem freshness_bounds (ct : ContentType) :
    0 ≤ calculate_freshness_score ct ∧ calculate_freshness_score ct ≤ 1 := by
  rcases ct <;> simp [calculate_freshness_score, divInt_as_div] <;> norm_num

theorem confidence_bounds (kw sem ctx : ℚ)
    (hkw : 0 ≤ kw ∧ kw ≤ 1) (hsem : 0 ≤ sem ∧ sem ≤ 1) (hctx : 0 ≤ ctx ∧ ctx ≤ 1) :
    0 ≤ calculate_confidence kw sem ctx ∧ calculate_confidence kw sem ctx ≤ 1 := by
  simp only [calculate_confidence]
  have hmem : ∀ x ∈ ([kw, sem, ctx]).filter (fun s => decide (s > Rat.divInt 1 10)),
      0 ≤ x ∧ x ≤ 1 := by
    intro x hx
    have hx' := (List.mem_filter.mp hx).1
    simp only [List.mem_cons, List.mem_singleton, List.not_mem_nil, or_false] at hx'
    rcases hx' with h | h | h <;> subst h <;> assumption
  split_ifs with hl1 hl2
  · simp only [qmin_eq, qadd_eq, qdiv_eq, qsum_eq]
    have hs : 0 ≤ (([kw, sem, ctx]).filter (fun s => decide (s > Rat.divInt 1 10))).sum :=
      List.sum_nonneg (fun x hx => (hmem x hx).1)
    have hdiv : (0:ℚ) ≤ (([kw, sem, ctx]).filter (fun s => decide (s > Rat.divInt 1 10))).sum /
        ((([kw, sem, ctx]).filter (fun s => decide (s > Rat.divInt 1 10))).length : ℚ) :=
      div_nonneg hs (Nat.cast_nonneg _)
    have h910 : Rat.divInt 9 10 = (9:ℚ)/10 := by rw [divInt_as_div]; norm_num
    have h210 : Rat.divInt 2 10 = (2:ℚ)/10 := by rw [divInt_as_div]; norm_num
    constructor
    · refine le_min (by rw [h910]; norm_num) ?_
      rw [h210]
      linarith
    · calc min (Rat.divInt 9 10) _ ≤ Rat.divInt 9 10 := min_le_left _ _
        _ ≤ 1 := by rw [h910]; norm_num
  · simp only [qmul_eq]
    obtain ⟨x, hx⟩ := List.length_eq_one.mp hl2
    rw [hx]
    have hxb := hmem x (by rw [hx]; exact List.mem_singleton_self x)
    simp only [List.headD_cons]
    have h710 : Rat.divInt 7 10 = (7:ℚ)/10 := by rw [divInt_as_div]; norm_num
    rw [h710]
    constructor
    · have := hxb.1
      positivity
    · nlinarith [hxb.1, hxb.2]
  · have h310 : Rat.divInt 3 10 = (3:ℚ)/10 := by rw [divInt_as_div]; norm_num
    rw [h310]
    norm_num

/-- C7: for every query, content, content type and context info, the
returned relevance score satisfies `0 ≤ total_score ≤ 1` and
`0 ≤ confidence ≤ 1`. -/
theorem c7_score_bounds (query content : String) (ct : ContentType) (ci : ContextInfo) :
    0 ≤ (score_content_relevance query content ct ci).total_score ∧
    (score_content_relevance query content ct ci).total_score ≤ 1 ∧
    0 ≤ (score_content_relevance query content ct ci).confidence ∧
    (score_content_relevance query content ct ci).confidence ≤ 1 := by
  obtain ⟨hk1, hk2⟩ := keyword_relevance_bounds (pyLower query) (pyLower content) ct
  obtain ⟨hs1, hs2⟩ := semantic_relevance_bounds (pyLower query) (pyLower content)
  obtain ⟨hc1, hc2⟩ := context_relevance_bounds (pyLower query) (pyLower content) ct ci
  obtain ⟨hf1, hf2⟩ := freshness_bounds ct
  obtain ⟨hcf1, hcf2⟩ := confidence_bounds _ _ _ ⟨hk1, hk2⟩ ⟨hs1, hs2⟩ ⟨hc1, hc2⟩
  unfold score_content_relevance
  split
  · norm_num
  · rcases ct <;>
    · simp only [get_content_type_weights]
      refine ⟨?_, ?_, hcf1, hcf2⟩
      · simp only [qmin_eq, qadd_eq, qmul_eq, divInt_as_div]
        refine le_min ?_ zero_le_one
        have := mul_nonneg hk1 (by norm_num :
          (0:ℚ) ≤ ((4:ℚ)/(10:ℚ)))
        nlinarith [hk1, hs1, hc1, hf1]
      · simp only [qmin_eq, qadd_eq, qmul_eq, divInt_as_div]
        exact min_le_right _ _

/-! ## C6 -/

theorem get_from_cache_frame (now : ℚ) (key : String) (st : OptState) :
    (get_from_cache now key st).2.ocr_call_times = st.ocr_call_times ∧
    (get_from_cache now key st).2.metrics = st.metrics := by
  unfold get_from_cache
  cases hd : dictGet st.cache key with
  | none => exact ⟨rfl, rfl⟩
  | some e =>
    dsimp only
    split_ifs <;> exact ⟨rfl, rfl⟩

theorem cleanup_cache_frame (now : ℚ) (st : OptState) :
    (cleanup_cache now st).ocr_call_times = st.ocr_call_times ∧
    (cleanup_cache now st).metrics = st.metrics := by
  simp only [cleanup_cache]
  split_ifs <;> exact ⟨rfl, rfl⟩

theorem add_to_cache_frame (now : ℚ) (key : String) (d : CacheData)
    (ct : CacheType) (st : OptState) :
    (add_to_cache now key d ct st).ocr_call_times = st.ocr_call_times ∧
    (add_to_cache now key d ct st).metrics = st.metrics := by
  simp only [add_to_cache]
  split_ifs with h
  · exact cleanup_cache_frame now _
  · exact ⟨rfl, rfl⟩

theorem should_use_ocr_rate_pass (now : ℚ) (q w : String) (st : OptState)
    (hlen : (st.ocr_call_times.filter (fun t => decide (qsub now 60 < t))).length < 10) :
    (should_use_ocr now q w false st).2.ocr_call_times =
      st.ocr_call_times.filter (fun t => decide (qsub now 60 < t)) ++ [now] ∧
    (should_use_ocr now q w false st).2.metrics.ocr_calls_saved =
      st.metrics.ocr_calls_saved := by
  have hck : check_ocr_rate_limit now st =
      (true, { st with ocr_call_times :=
        st.ocr_call_times.filter (fun t => decide (qsub now 60 < t)) ++ [now] }) := by
    unfold check_ocr_rate_limit
    rw [if_neg]
    simp only [ocr_rate_limit]
    omega
  simp only [should_use_ocr, hck, Bool.not_true, Bool.false_eq_true, if_false]
  split_ifs
  · simp
  · simp
  all_goals {
    cases hg : get_from_cache now
      (generate_cache_key ("ocr_decision_" ++ q ++ "_" ++ w))
      { st with ocr_call_times :=
        st.ocr_call_times.filter (fun t => decide (qsub now 60 < t)) ++ [now] }
      with
    | mk cached st2 =>
      have hfr := get_from_cache_frame now
        (generate_cache_key ("ocr_decision_" ++ q ++ "_" ++ w))
        { st with ocr_call_times :=
          st.ocr_call_times.filter (fun t => decide (qsub now 60 < t)) ++ [now] }
      rw [hg] at hfr
      cases cached with
      | none =>
        have hfr2 := add_to_cache_frame now
          (generate_cache_key ("ocr_decision_" ++ q ++ "_" ++ w))
          (CacheData.bool (has_screen_context_indicators q)) .CONTEXT_DECISION st2
        simp only [hg]
        exact ⟨by rw [hfr2.1, hfr.1], by rw [hfr2.2, hfr.2]⟩
      | some v =>
        simp only [hg]
        exact ⟨hfr.1, by rw [show ({ st2 with metrics := { st2.metrics with
          cache_hits := st2.metrics.cache_hits + 1 } } : OptState).metrics.ocr_calls_saved
            = st2.metrics.ocr_calls_saved from rfl, hfr.2]⟩
  }

theorem should_use_ocr_rate_fail (now : ℚ) (q w : String) (st : OptState)
    (hlen : 10 ≤ (st.ocr_call_times.filter (fun t => decide (qsub now 60 < t))).length) :
    (should_use_ocr now q w false st).1 = (false, "OCR rate limit exceeded") ∧
    (should_use_ocr now q w false st).2.ocr_call_times =
      st.ocr_call_times.filter (fun t => decide (qsub now 60 < t)) ∧
    (should_use_ocr now q w false st).2.metrics.ocr_calls_saved =
      st.metrics.ocr_calls_saved + 1 := by
  have hck : check_ocr_rate_limit now st =
      (false, { st with ocr_call_times :=
        st.ocr_call_times.filter (fun t => decide (qsub now 60 < t)) }) := by
    unfold check_ocr_rate_limit
    rw [if_pos]
    simp only [ocr_rate_limit]
    omega
  simp only [should_use_ocr, hck, Bool.false_eq_true, if_false, Bool.not_false, if_true]
  refine ⟨?_, ?_, ?_⟩ <;> simp

theorem runOcrCalls_within_window (calls : List (ℚ × String × String)) :
    ∀ (st : OptState),
      st.ocr_call_times.length + calls.length ≤ 10 →
      (∀ t ∈ st.ocr_call_times ++ calls.map (fun c => c.1),
       ∀ t' ∈ st.ocr_call_times ++ calls.map (fun c => c.1), qsub t t' < 60) →
      (runOcrCalls calls st).ocr_call_times =
        st.ocr_call_times ++ calls.map (fun c => c.1) ∧
      (runOcrCalls calls st).metrics.ocr_calls_saved = st.metrics.ocr_calls_saved := by
  induction calls with
  | nil =>
    intro st _ _
    exact ⟨by simp [runOcrCalls], rfl⟩
  | cons c rest ih =>
    intro st hlen hwin
    have hmemc : c.1 ∈ st.ocr_call_times ++ (c :: rest).map (fun c => c.1) := by
      simp
    have hfilter : st.ocr_call_times.filter (fun t => decide (qsub c.1 60 < t)) =
        st.ocr_call_times := by
      apply List.filter_eq_self.mpr
      intro t ht
      have h1 := hwin c.1 hmemc t (List.mem_append_left _ ht)
      rw [qsub_eq] at h1
      rw [decide_eq_true_eq, qsub_eq]
      linarith
    have hlt : (st.ocr_call_times.filter (fun t => decide (qsub c.1 60 < t))).length < 10 := by
      rw [hfilter]
      simp only [List.length_cons] at hlen
      omega
    obtain ⟨hocr, hsaved⟩ := should_use_ocr_rate_pass c.1 c.2.1 c.2.2 st hlt
    rw [hfilter] at hocr
    have hrun : runOcrCalls (c :: rest) st =
        runOcrCalls rest ((should_use_ocr c.1 c.2.1 c.2.2 false st).2) := by
      simp [runOcrCalls]
    have hset : (should_use_ocr c.1 c.2.1 c.2.2 false st).2.ocr_call_times ++
        rest.map (fun c => c.1) =
        st.ocr_call_times ++ (c :: rest).map (fun c => c.1) := by
      rw [hocr, List.append_assoc]
      simp
    obtain ⟨ih1, ih2⟩ := ih ((should_use_ocr c.1 c.2.1 c.2.2 false st).2)
      (by
        rw [hocr]
        simp only [List.length_append, List.length_cons, List.length_nil] at hlen ⊢
        omega)
      (by
        intro t ht t' ht'
        rw [hset] at ht ht'
        exact hwin t ht t' ht')
    rw [hrun]
    exact ⟨by rw [ih1]; exact hset, by rw [ih2, hsaved]⟩

/-- C6: starting from an empty OCR call-time list, any 10 non-force
`should_use_ocr` calls whose times (together with an 11th call time) lie
within a 60-second window all pass the rate-limit check (each appends its
time, and the saved-calls counter is untouched), and the 11th call returns
`(False, "OCR rate limit exceeded")` and increments `ocr_calls_saved`. -/
theorem c6_ocr_rate_limit (calls : List (ℚ × String × String)) (t11 : ℚ)
    (q11 w11 : String) (st0 : OptState)
    (hempty : st0.ocr_call_times = [])
    (hlen : calls.length = 10)
    (hwin : ∀ t ∈ calls.map (fun c => c.1) ++ [t11],
            ∀ t' ∈ calls.map (fun c => c.1) ++ [t11], qsub t t' < 60) :
    (runOcrCalls calls st0).ocr_call_times = calls.map (fun c => c.1) ∧
    (runOcrCalls calls st0).metrics.ocr_calls_saved = st0.metrics.ocr_calls_saved ∧
    (should_use_ocr t11 q11 w11 false (runOcrCalls calls st0)).1 =
      (false, "OCR rate limit exceeded") ∧
    (should_use_ocr t11 q11 w11 false (runOcrCalls calls st0)).2.metrics.ocr_calls_saved
      = st0.metrics.ocr_calls_saved + 1 := by
  obtain ⟨h1, h2⟩ := runOcrCalls_within_window calls st0
    (by rw [hempty]; simp [hlen])
    (by
      rw [hempty]
      intro t ht t' ht'
      simp only [List.nil_append] at ht ht'
      exact hwin t (List.mem_append_left _ ht) t' (List.mem_append_left _ ht'))
  rw [hempty, List.nil_append] at h1
  have hfilter : (runOcrCalls calls st0).ocr_call_times.filter
      (fun t => decide (qsub t11 60 < t)) = calls.map (fun c => c.1) := by
    rw [h1]
    apply List.filter_eq_self.mpr
    intro t ht
    have ht11 : t11 ∈ calls.map (fun c => c.1) ++ [t11] := by simp
    have := hwin t11 ht11 t (List.mem_append_left _ ht)
    rw [qsub_eq] at this
    rw [decide_eq_true_eq, qsub_eq]
    linarith
  have hge : 10 ≤ ((runOcrCalls calls st0).ocr_call_times.filter
      (fun t => decide (qsub t11 60 < t))).length := by
    rw [hfilter]
    simp [hlen]
  obtain ⟨r1, r2, r3⟩ := should_use_ocr_rate_fail t11 q11 w11 (runOcrCalls calls st0) hge
  exact ⟨h1, h2, r1, by rw [r3, h2]⟩

/-- C6 witness: the theorem applied to 11 concrete calls at times 0..10. -/
theorem c6_ocr_rate_limit_witness :
    ((initOptState.ocr_call_times = []) ∧
     (([((0:ℚ), "query zero", ""), (1, "query one", ""), (2, "query two", ""),
        (3, "query three", ""), (4, "query four", ""), (5, "query five", ""),
        (6, "query six", ""), (7, "query seven", ""), (8, "query eight", ""),
        (9, "query nine", "")] : List (ℚ × String × String)).length = 10) ∧
     (∀ t ∈ ([((0:ℚ), "query zero", ""), (1, "query one", ""), (2, "query two", ""),
        (3, "query three", ""), (4, "query four", ""), (5, "query five", ""),
        (6, "query six", ""), (7, "query seven", ""), (8, "query eight", ""),
        (9, "query nine", "")] : List (ℚ × String × String)).map (fun c => c.1) ++ [(10:ℚ)],
      ∀ t' ∈ ([((0:ℚ), "query zero", ""), (1, "query one", ""), (2, "query two", ""),
        (3, "query three", ""), (4, "query four", ""), (5, "query five", ""),
        (6, "query six", ""), (7, "query seven", ""), (8, "query eight", ""),
        (9, "query nine", "")] : List (ℚ × String × String)).map (fun c => c.1) ++ [(10:ℚ)],
        qsub t t' < 60)) ∧
    ((should_use_ocr 10 "query eleven" "" false
      (runOcrCalls [((0:ℚ), "query zero", ""), (1, "query one", ""), (2, "query two", ""),
        (3, "query three", ""), (4, "query four", ""), (5, "query five", ""),
        (6, "query six", ""), (7, "query seven", ""), (8, "query eight", ""),
        (9, "query nine", "")] initOptState)).1 = (false, "OCR rate limit exceeded")) :=
  ⟨⟨rfl, rfl, by decide⟩,
   (c6_ocr_rate_limit
     [((0:ℚ), "query zero", ""), (1, "query one", ""), (2, "query two", ""),
      (3, "query three", ""), (4, "query four", ""), (5, "query five", ""),
      (6, "query six", ""), (7, "query seven", ""), (8, "query eight", ""),
      (9, "query nine", "")] 10 "query eleven" "" initOptState rfl rfl (by decide)).2.2.1⟩

/-! ## C5: eviction trigger and cleanup behaviour -/

theorem str_contains_iff (l : List String) (a : String) :
    l.contains a = true ↔ a ∈ l :=
  List.elem_iff

theorem nodup_keys_mem_eq {l : List (String × CacheEntry)}
    (h : (l.map (fun p => p.1)).Nodup) {a b : String × CacheEntry}
    (ha : a ∈ l) (hb : b ∈ l) (hk : a.1 = b.1) : a = b := by
  induction l with
  | nil => cases ha
  | cons x xs ih =>
    simp only [List.map_cons, List.nodup_cons] at h
    obtain ⟨hx, hxs⟩ := h
    rcases List.mem_cons.mp ha with ha1 | ha1 <;> rcases List.mem_cons.mp hb with hb1 | hb1
    · rw [ha1, hb1]
    · exfalso
      apply hx
      rw [ha1] at hk
      rw [hk]
      exact List.mem_map_of_mem _ hb1
    · exfalso
      apply hx
      rw [hb1] at hk
      rw [← hk]
      exact List.mem_map_of_mem _ ha1
    · exact ih hxs ha1 hb1

theorem dictSet_keys_nodup (m : List (String × CacheEntry)) (k : String)
    (v : CacheEntry) (h : (m.map (fun p => p.1)).Nodup) :
    ((dictSet m k v).map (fun p => p.1)).Nodup := by
  unfold dictSet
  by_cases hany : m.any (fun p => p.1 == k) = true
  · rw [if_pos hany]
    have heq : (m.map (fun p => if p.1 == k then (k, v) else p)).map (fun p => p.1) =
        m.map (fun p => p.1) := by
      rw [List.map_map]
      apply List.map_congr_left
      intro p _
      by_cases hp : (p.1 == k) = true
      · simp only [Function.comp_apply, hp, if_true]
        exact (eq_of_beq hp).symm
      · simp only [Function.comp_apply]
        rw [if_neg hp]
    rw [heq]
    exact h
  · rw [if_neg hany, List.map_append, List.nodup_append]
    refine ⟨h, by simp, ?_⟩
    intro a hma hk1
    simp only [List.map_cons, List.map_nil, List.mem_singleton] at hk1
    subst hk1
    apply hany
    obtain ⟨p, hp, hpa⟩ := List.mem_map.mp hma
    refine List.any_eq_true.mpr ⟨p, hp, ?_⟩
    exact beq_iff_eq.mpr hpa

theorem filter_drop_prefix (t d : List (String × CacheEntry))
    (hnd : ((t ++ d).map (fun p => p.1)).Nodup) :
    (t ++ d).filter (fun p => !(t.map (fun p => p.1)).contains p.1) = d := by
  rw [List.map_append, List.nodup_append] at hnd
  obtain ⟨h1, h2, hdisj⟩ := hnd
  rw [List.filter_append]
  have ht : t.filter (fun p => !(t.map (fun p => p.1)).contains p.1) = [] := by
    rw [List.filter_eq_nil_iff]
    intro p hp hF
    rw [Bool.not_eq_true'] at hF
    have hmem : p.1 ∈ t.map (fun p => p.1) := List.mem_map_of_mem _ hp
    have hc := (str_contains_iff _ _).mpr hmem
    rw [hF] at hc
    exact Bool.false_ne_true hc
  have hd : d.filter (fun p => !(t.map (fun p => p.1)).contains p.1) = d := by
    rw [List.filter_eq_self]
    intro p hp
    rw [Bool.not_eq_true']
    rcases hcase : (t.map (fun p => p.1)).contains p.1 with _ | _
    · exact hcase
    · exfalso
      exact hdisj ((str_contains_iff _ _).mp hcase) (List.mem_map_of_mem _ hp)
  rw [ht, hd, List.nil_append]

theorem sorted_filter_spec (kept sorted : List (String × CacheEntry)) (n : Nat)
    (hknd : (kept.map (fun p => p.1)).Nodup)
    (hperm : sorted.Perm kept)
    (hpw : List.Pairwise (fun a b : String × CacheEntry =>
      a.2.last_accessed ≤ b.2.last_accessed) sorted) :
    (kept.filter (fun p =>
        !((sorted.take n).map (fun p => p.1)).contains p.1)).length = kept.length - n ∧
    (∀ p ∈ kept,
      p ∉ kept.filter (fun p => !((sorted.take n).map (fun p => p.1)).contains p.1) →
      ∀ q_ ∈ kept.filter (fun p => !((sorted.take n).map (fun p => p.1)).contains p.1),
        p.2.last_accessed ≤ q_.2.last_accessed) := by
  have hsortnd : (sorted.map (fun p => p.1)).Nodup := ((hperm.map _).nodup_iff).mpr hknd
  have hfilters : sorted.filter (fun p => !((sorted.take n).map (fun p => p.1)).contains p.1)
      = sorted.drop n := by
    have h := filter_drop_prefix (sorted.take n) (sorted.drop n)
      (by rw [List.take_append_drop]; exact hsortnd)
    rw [List.take_append_drop] at h
    exact h
  have hpermf := hperm.filter
    (fun p => !((sorted.take n).map (fun p => p.1)).contains p.1)
  constructor
  · rw [← hpermf.length_eq, hfilters, List.length_drop, hperm.length_eq]
  · intro p hpk hpnot q hq
    have hqs : q ∈ sorted.drop n := by
      rw [← hfilters]
      exact hpermf.mem_iff.mpr hq
    have hpf : ¬ ((fun p : String × CacheEntry =>
        !((sorted.take n).map (fun p => p.1)).contains p.1) p = true) :=
      fun hF => hpnot (List.mem_filter.mpr ⟨hpk, hF⟩)
    have hpc : ((sorted.take n).map (fun p => p.1)).contains p.1 = true := by
      rcases hcase : ((sorted.take n).map (fun p => p.1)).contains p.1 with _ | _
      · exfalso
        apply hpf
        simp only [hcase, Bool.not_false]
      · exact hcase
    have hpm := (str_contains_iff _ _).mp hpc
    obtain ⟨r, hr, hr1⟩ := List.mem_map.mp hpm
    have hrk : r ∈ kept := hperm.mem_iff.mp (List.mem_of_mem_take hr)
    have hrp : r = p := nodup_keys_mem_eq hknd hrk hpk hr1
    have hptake : p ∈ sorted.take n := hrp ▸ hr
    have hpw2 : List.Pairwise (fun a b : String × CacheEntry =>
        a.2.last_accessed ≤ b.2.last_accessed) (sorted.take n ++ sorted.drop n) := by
      rw [List.take_append_drop]
      exact hpw
    exact (List.pairwise_append.mp hpw2).2.2 p hptake q hqs

theorem cleanup_cache_spec (now : ℚ) (st : OptState)
    (hnd : (st.cache.map (fun p => p.1)).Nodup) :
    (cleanup_cache now st).cache.length ≤ max_cache_size ∧
    (∀ p ∈ (cleanup_cache now st).cache, qsub now p.2.timestamp ≤ p.2.ttl_seconds) ∧
    (∀ p ∈ st.cache, qsub now p.2.timestamp ≤ p.2.ttl_seconds →
      p ∉ (cleanup_cache now st).cache →
      ∀ q_ ∈ (cleanup_cache now st).cache,
        p.2.last_accessed ≤ q_.2.last_accessed) := by
  haveI : IsTotal (String × CacheEntry)
      (fun a b => a.2.last_accessed ≤ b.2.last_accessed) :=
    ⟨fun a b => le_total _ _⟩
  haveI : IsTrans (String × CacheEntry)
      (fun a b => a.2.last_accessed ≤ b.2.last_accessed) :=
    ⟨fun a b c hab hbc => le_trans hab hbc⟩
  have hknd : ((st.cache.filter
      (fun p => decide (qsub now p.2.timestamp ≤ p.2.ttl_seconds))).map
        (fun p => p.1)).Nodup :=
    List.Nodup.sublist (List.Sublist.map _ (List.filter_sublist _)) hnd
  simp only [cleanup_cache]
  split_ifs with hbig
  · have hspec := sorted_filter_spec
      (st.cache.filter (fun p => decide (qsub now p.2.timestamp ≤ p.2.ttl_seconds)))
      (List.insertionSort (fun a b => a.2.last_accessed ≤ b.2.last_accessed)
        (st.cache.filter (fun p => decide (qsub now p.2.timestamp ≤ p.2.ttl_seconds))))
      ((st.cache.filter
        (fun p => decide (qsub now p.2.timestamp ≤ p.2.ttl_seconds))).length
          - max_cache_size)
      hknd (List.perm_insertionSort _ _) (List.sorted_insertionSort _ _)
    refine ⟨?_, ?_, ?_⟩
    · dsimp only
      rw [hspec.1]
      omega
    · intro p hp
      have hp2 := List.mem_filter.mp (List.mem_filter.mp hp).1
      exact of_decide_eq_true hp2.2
    · intro p hpst hpexp hpnot q hq
      exact hspec.2 p (List.mem_filter.mpr ⟨hpst, decide_eq_true hpexp⟩) hpnot q hq
  · refine ⟨?_, ?_, ?_⟩
    · dsimp only
      omega
    · intro p hp
      exact of_decide_eq_true (List.mem_filter.mp hp).2
    · intro p hpst hpexp hpnot q hq
      exact absurd (List.mem_filter.mpr ⟨hpst, decide_eq_true hpexp⟩) hpnot

theorem insertKeys_fresh_length (now : ℚ) (d : CacheData) (ct : CacheType)
    (keys : List String) (st : OptState)
    (hfresh : ∀ k ∈ keys, st.cache.any (fun p => p.1 == k) = false)
    (hnd : keys.Nodup)
    (hlen : st.cache.length + keys.length ≤ 1100) :
    (insertKeys now d ct keys st).cache.length = st.cache.length + keys.length := by
  induction keys generalizing st with
  | nil => simp [insertKeys]
  | cons k ks ih =>
    simp only [List.length_cons] at hlen
    have hstep : insertKeys now d ct (k :: ks) st
        = insertKeys now d ct ks (add_to_cache now k d ct st) := rfl
    rw [hstep]
    have hkfresh := hfresh k (List.mem_cons_self k ks)
    have hds : dictSet st.cache k ⟨d, now, 0, now, default_ttl ct⟩
        = st.cache ++ [(k, ⟨d, now, 0, now, default_ttl ct⟩)] := by
      unfold dictSet
      rw [hkfresh]
      simp
    have hatc : (add_to_cache now k d ct st).cache
        = st.cache ++ [(k, ⟨d, now, 0, now, default_ttl ct⟩)] := by
      simp only [add_to_cache]
      rw [hds]
      rw [if_neg (by
        simp only [List.length_append, List.length_cons, List.length_nil]
        omega)]
    have hfresh2 : ∀ k' ∈ ks,
        (add_to_cache now k d ct st).cache.any (fun p => p.1 == k') = false := by
      intro k' hk'
      rw [hatc]
      simp only [List.any_append, List.any_cons, List.any_nil, Bool.or_false]
      rw [hfresh k' (List.mem_cons_of_mem _ hk')]
      simp only [Bool.false_or]
      rw [beq_eq_false_iff_ne]
      intro heq
      exact (List.nodup_cons.mp hnd).1 (heq ▸ hk')
    have hnd2 := (List.nodup_cons.mp hnd).2
    have hlen2 : (add_to_cache now k d ct st).cache.length + ks.length ≤ 1100 := by
      rw [hatc]
      simp only [List.length_append, List.length_cons, List.length_nil]
      omega
    rw [ih (add_to_cache now k d ct st) hfresh2 hnd2 hlen2, hatc]
    simp only [List.length_append, List.length_cons, List.length_nil]
    omega

/-- C5 (counterexample): inserting more than `max_cache_size` entries does NOT
trigger cleanup — 1001 distinct fresh insertions leave 1001 entries in the
cache, strictly above `max_cache_size = 1000`, because the cleanup trigger in
`_add_to_cache` fires only above `max_cache_size * 1.1 = 1100`. -/
theorem c5_counterexample :
    (insertKeys 0 (CacheData.str "v") CacheType.WEB_SEARCH (distinctKeys 1001)
      initOptState).cache.length = 1001 ∧ max_cache_size < 1001 := by
  constructor
  · have hfresh : ∀ k ∈ distinctKeys 1001,
        initOptState.cache.any (fun p => p.1 == k) = false := by
      intro k _
      rfl
    have hinj : Function.Injective (fun i => String.mk (List.replicate i 'a')) := by
      intro a b h
      have h2 : List.replicate a 'a' = List.replicate b 'a' := congrArg String.data h
      have h3 := congrArg List.length h2
      simp only [List.length_replicate] at h3
      exact h3
    have hnd : (distinctKeys 1001).Nodup := by
      unfold distinctKeys
      exact List.Nodup.map hinj (List.nodup_range 1001)
    have hdl : (distinctKeys 1001).length = 1001 := by
      unfold distinctKeys
      rw [List.length_map, List.length_range]
    have hlen : initOptState.cache.length + (distinctKeys 1001).length ≤ 1100 := by
      rw [hdl]
      norm_num [initOptState]
    rw [insertKeys_fresh_length 0 (CacheData.str "v") CacheType.WEB_SEARCH
      (distinctKeys 1001) initOptState hfresh hnd hlen, hdl]
    norm_num [initOptState]
  · norm_num [max_cache_size]

/-- C5 (amended): an insertion triggers cleanup only above
`max_cache_size * 1.1` entries (1100), so the cache right after `_add_to_cache`
holds at most 1100 entries (not 1000); when the trigger does fire the size
returns to at most `max_cache_size`.  `cleanup_cache` itself behaves as
claimed on any cache with distinct keys: afterwards at most `max_cache_size`
entries remain, every surviving entry is unexpired, and every unexpired entry
it drops has a `last_accessed` no later than that of any survivor
(least-recently-accessed eviction). -/
theorem c5_amended (now : ℚ) (k : String) (d : CacheData) (ct : CacheType)
    (st : OptState) (hnd : (st.cache.map (fun p => p.1)).Nodup) :
    (add_to_cache now k d ct st).cache.length ≤ 1100 ∧
    (1100 < (dictSet st.cache k ⟨d, now, 0, now, default_ttl ct⟩).length →
      (add_to_cache now k d ct st).cache.length ≤ max_cache_size) ∧
    (cleanup_cache now st).cache.length ≤ max_cache_size ∧
    (∀ p ∈ (cleanup_cache now st).cache,
      qsub now p.2.timestamp ≤ p.2.ttl_seconds) ∧
    (∀ p ∈ st.cache, qsub now p.2.timestamp ≤ p.2.ttl_seconds →
      p ∉ (cleanup_cache now st).cache →
      ∀ q_ ∈ (cleanup_cache now st).cache,
        p.2.last_accessed ≤ q_.2.last_accessed) := by
  obtain ⟨h1, h2, h3⟩ := cleanup_cache_spec now st hnd
  have hnd1 : ((dictSet st.cache k ⟨d, now, 0, now, default_ttl ct⟩).map
      (fun p => p.1)).Nodup :=
    dictSet_keys_nodup _ _ _ hnd
  have hcl := cleanup_cache_spec now
    { st with cache := dictSet st.cache k ⟨d, now, 0, now, default_ttl ct⟩ } hnd1
  refine ⟨?_, ?_, h1, h2, h3⟩
  · simp only [add_to_cache]
    split_ifs with htr
    · calc (cleanup_cache now _).cache.length ≤ max_cache_size := hcl.1
        _ ≤ 1100 := by norm_num [max_cache_size]
    · dsimp only
      omega
  · intro hgt
    simp only [add_to_cache]
    split_ifs with htr
    · exact hcl.1
    · exact absurd hgt htr

/-- Witness for `c5_amended` at a concrete state with distinct cache keys. -/
theorem c5_amended_witness :
    (initOptState.cache.map (fun p => p.1)).Nodup ∧
    (add_to_cache 0 "k" (CacheData.str "v") CacheType.WEB_SEARCH
      initOptState).cache.length ≤ 1100 ∧
    (cleanup_cache 0 initOptState).cache.length ≤ max_cache_size :=
  ⟨by decide,
   (c5_amended 0 "k" (CacheData.str "v") CacheType.WEB_SEARCH initOptState
     (by decide)).1,
   (c5_amended 0 "k" (CacheData.str "v") CacheType.WEB_SEARCH initOptState
     (by decide)).2.2.1⟩

theorem qwindow_self (now : ℚ) : decide (qsub now 60 < now) = true :=
  decide_eq_true (by rw [qsub_eq]; linarith)

theorem find_similar_none (qw : List String) (keys : List String)
    (h : ∀ k ∈ keys, pyStartsWith k "web_" = false) :
    find_similar_from_keys qw keys = none := by
  induction keys with
  | nil => rfl
  | cons k ks ih =>
    unfold find_similar_from_keys
    rw [h k (List.mem_cons_self k ks)]
    simp only [Bool.false_eq_true, if_false]
    exact ih (fun k' hk' => h k' (List.mem_cons_of_mem _ hk'))

theorem dictGet_some_mem {m : List (String × CacheEntry)} {k : String}
    {e : CacheEntry} (h : dictGet m k = some e) : ∃ p ∈ m, p.2 = e := by
  unfold dictGet at h
  cases hf : m.find? (fun p => p.1 == k) with
  | none => rw [hf] at h; cases h
  | some p =>
    rw [hf] at h
    refine ⟨p, List.mem_of_find?_eq_some hf, ?_⟩
    simpa using h

theorem dictSet_forall {P : String × CacheEntry → Prop}
    (m : List (String × CacheEntry)) (k : String) (v : CacheEntry)
    (hm : ∀ p ∈ m, P p) (hkv : P (k, v)) :
    ∀ p ∈ dictSet m k v, P p := by
  unfold dictSet
  split_ifs with hany
  · intro p hp
    obtain ⟨q_, hq, hqp⟩ := List.mem_map.mp hp
    by_cases hqk : (q_.1 == k) = true
    · rw [if_pos hqk] at hqp
      rw [← hqp]
      exact hkv
    · rw [if_neg hqk] at hqp
      rw [← hqp]
      exact hm q_ hq
  · intro p hp
    rcases List.mem_append.mp hp with hp1 | hp1
    · exact hm p hp1
    · rw [List.mem_singleton.mp hp1]
      exact hkv

theorem dictDel_mem {m : List (String × CacheEntry)} {k : String}
    {p : String × CacheEntry} (h : p ∈ dictDel m k) : p ∈ m :=
  List.mem_of_mem_filter h

theorem web_gate_pass (now : ℚ) (q : String) (st : OptState)
    (hq1 : ¬ (pyStrip q).length < min_query_length)
    (hq2 : web_search_indicators.any (fun w => pyContains (pyLower q) w) = false)
    (hq3 : local_screen_indicators.any (fun w => pyContains (pyLower q) w) = false)
    (hq4 : question_words_opt.any (fun w => pyContains (pyLower q) w) = true)
    (hq5 : (pySplitWs q).length > 3)
    (hfilter : st.web_call_times.filter (fun t => decide (qsub now 60 < t))
      = st.web_call_times)
    (hlen : st.web_call_times.length < web_rate_limit)
    (hkeys : ∀ p ∈ st.cache, pyStartsWith p.1 "web_" = false) :
    should_use_web_search now q false st =
      ((true, "Complex question likely needs external information"),
       { st with web_call_times := st.web_call_times ++ [now] }) := by
  have hfs : find_similar_cached_query q
      { st with web_call_times := st.web_call_times ++ [now] } = none := by
    unfold find_similar_cached_query
    apply find_similar_none
    intro k hk
    obtain ⟨p, hp, hpk⟩ := List.mem_map.mp hk
    exact hpk ▸ hkeys p hp
  simp only [should_use_web_search, check_web_rate_limit]
  rw [hfilter, if_neg (by omega : ¬ st.web_call_times.length ≥ web_rate_limit)]
  rw [if_neg Bool.false_ne_true]
  simp only [Bool.not_true]
  rw [if_neg Bool.false_ne_true]
  rw [if_neg hq1]
  rw [if_neg (by rw [hq2]; exact Bool.false_ne_true)]
  rw [if_neg (by rw [hq3]; exact Bool.false_ne_true)]
  rw [hfs]
  rw [if_pos (show _ = true by rw [hq4, decide_eq_true hq5]; rfl)]

theorem ocr_gate_pass (now : ℚ) (q wi : String) (st : OptState)
    (hq1 : ¬ (pyStrip q).length < min_query_length)
    (hq2 : (generic_patterns.any (fun p => pyContains (pyLower q) p) &&
        !(ocr_generic_screen_indicators.any (fun w => pyContains (pyLower q) w)))
      = false)
    (hq3 : has_screen_context_indicators q = true)
    (hfilter : st.ocr_call_times.filter (fun t => decide (qsub now 60 < t))
      = st.ocr_call_times)
    (hlen : st.ocr_call_times.length < ocr_rate_limit)
    (hclen : st.cache.length < 1100)
    (hcache : ∀ p ∈ st.cache,
      pyStartsWith p.1 "web_" = false ∧ p.2.data.truthy = true) :
    ∃ r st', should_use_ocr now q wi false st = ((true, r), st') ∧
      st'.web_call_times = st.web_call_times ∧
      st'.ocr_call_times = st.ocr_call_times ++ [now] ∧
      st'.cache.length ≤ st.cache.length + 1 ∧
      (∀ p ∈ st'.cache,
        pyStartsWith p.1 "web_" = false ∧ p.2.data.truthy = true) := by
  simp only [should_use_ocr, check_ocr_rate_limit]
  rw [hfilter, if_neg (by omega : ¬ st.ocr_call_times.length ≥ ocr_rate_limit)]
  rw [if_neg Bool.false_ne_true]
  simp only [Bool.not_true]
  rw [if_neg Bool.false_ne_true]
  rw [if_neg hq1]
  rw [if_neg (by rw [hq2]; exact Bool.false_ne_true)]
  generalize hkg : generate_cache_key ("ocr_decision_" ++ q ++ "_" ++ wi) = key
  have hkweb : pyStartsWith key "web_" = false := by
    rw [← hkg]
    unfold generate_cache_key
    exact md5Hex_not_web _
  cases hd : dictGet st.cache key with
  | none =>
    simp only [get_from_cache_of_none now key
      { st with ocr_call_times := st.ocr_call_times ++ [now] } hd, hq3]
    have hsmall := add_to_cache_small now key (.bool true) .CONTEXT_DECISION
      { st with ocr_call_times := st.ocr_call_times ++ [now] }
      (by dsimp only; omega)
    rw [hsmall]
    refine ⟨_, _, rfl, rfl, rfl, ?_, ?_⟩
    · dsimp only
      exact dictSet_length _ _ _
    · dsimp only
      exact dictSet_forall _ _ _ hcache ⟨hkweb, rfl⟩
  | some e =>
    obtain ⟨pe, hpe, hpee⟩ := dictGet_some_mem hd
    have htr : e.data.truthy = true := by
      rw [← hpee]
      exact (hcache pe hpe).2
    by_cases hexp : e.ttl_seconds < qsub now e.timestamp
    · simp only [get_from_cache_of_some now key
        { st with ocr_call_times := st.ocr_call_times ++ [now] } e hd,
        if_pos hexp, hq3]
      have hsmall := add_to_cache_small now key (.bool true) .CONTEXT_DECISION
        { st with ocr_call_times := st.ocr_call_times ++ [now], cache := dictDel st.cache key }
        (by
          dsimp only
          have h2 := List.length_filter_le (fun p => p.1 != key) st.cache
          unfold dictDel
          omega)
      rw [hsmall]
      refine ⟨_, _, rfl, rfl, rfl, ?_, ?_⟩
      · dsimp only
        have h1 := dictSet_length (dictDel st.cache key) key
          ⟨.bool true, now, 0, now, default_ttl .CONTEXT_DECISION⟩
        have h2 : (dictDel st.cache key).length ≤ st.cache.length := by
          unfold dictDel
          exact List.length_filter_le _ _
        omega
      · dsimp only
        exact dictSet_forall _ _ _ (fun p hp => hcache p (dictDel_mem hp))
          ⟨hkweb, rfl⟩
    · simp only [get_from_cache_of_some now key
        { st with ocr_call_times := st.ocr_call_times ++ [now] } e hd,
        if_neg hexp, htr]
      refine ⟨_, _, rfl, rfl, rfl, ?_, ?_⟩
      · dsimp only
        exact dictSet_length _ _ _
      · dsimp only
        apply dictSet_forall _ _ _ hcache
        exact ⟨hkweb, htr⟩

theorem qfilter_window (now : ℚ) (l : List ℚ) (h : ∀ t ∈ l, qsub now 60 < t) :
    l.filter (fun t => decide (qsub now 60 < t)) = l :=
  List.filter_eq_self.mpr (fun t ht => decide_eq_true (h t ht))

/-- C3 (counterexample): on a fresh optimizer, the scenario query
"What's this error message on my screen?" is NOT classified SCREEN_RELATED
(its screen keyword score is 1/44, above the 0.02 general-question gate but
not above the 0.1 screen gate, and it has no current-reference word), and
with has_live_ocr = False the decision does not use OCR either. -/
theorem c3_counterexample :
    (analyze_query 0 c3_query "" false initOptState).1.query_type
        = QueryType.GENERAL_QUESTION ∧
    (analyze_query 0 c3_query "" false initOptState).1.use_ocr = false := by
  constructor
  · decide
  · decide

set_option maxHeartbeats 2000000 in
/-- C3 (amended): starting from fresh optimizer state, for every call time,
window_info and has_live_ocr value, analyze_query on "What's this error
message on my screen?" returns query_type = GENERAL_QUESTION (not
SCREEN_RELATED), use_web = False, and use_ocr equal to has_live_ocr (the
general-question live-OCR branch, not the screen branch); the fusion half of
the scenario holds as claimed: fuse_contexts on that query with the
traceback screen text and empty web results yields a primary_context that
starts with "Screen Content (OCR):" and contains the traceback. -/
theorem c3_amended (now : ℚ) (wi : String) (live : Bool) :
    (analyze_query now c3_query wi live initOptState).1.query_type
        = QueryType.GENERAL_QUESTION ∧
    (analyze_query now c3_query wi live initOptState).1.use_web = false ∧
    (analyze_query now c3_query wi live initOptState).1.use_ocr = live ∧
    pyStartsWith (fuse_contexts c3_query c3_traceback "" "").primary_context
      "Screen Content (OCR):" = true ∧
    pyContains (fuse_contexts c3_query c3_traceback "" "").primary_context
      c3_traceback = true := by
  obtain ⟨r1, st1, heq1, hw1, ho1, hl1, hc1⟩ :=
    ocr_gate_pass now c3_query wi initOptState (by decide) (by decide) (by decide)
      rfl (by decide) (by decide) (by intro p hp; simp [initOptState] at hp)
  have hoc1 : st1.ocr_call_times = [now] := by rw [ho1]; rfl
  have hwc1 : st1.web_call_times = [] := by rw [hw1]; rfl
  have hcl1 : st1.cache.length ≤ 1 := by
    have h0 : initOptState.cache.length = 0 := rfl
    omega
  have hweb1 := web_gate_pass now c3_query st1 (by decide) (by decide) (by decide)
    (by decide) (by decide) (by rw [hwc1]; rfl) (by rw [hwc1]; decide)
    (fun p hp => (hc1 p hp).1)
  set st2 : OptState := { st1 with web_call_times := st1.web_call_times ++ [now] }
    with hst2
  have hoc2 : st2.ocr_call_times = [now] := by rw [hst2]; dsimp only; exact hoc1
  have hwc2 : st2.web_call_times = [now] := by
    rw [hst2]
    dsimp only
    rw [hwc1]
    rfl
  have hcc2 : st2.cache = st1.cache := by rw [hst2]
  obtain ⟨r3, st3, heq3, hw3, ho3, hl3, hc3⟩ :=
    ocr_gate_pass now (pyLower c3_query) wi st2 (by decide) (by decide) (by decide)
      (qfilter_window now st2.ocr_call_times (by
        intro t ht
        rw [hoc2, List.mem_singleton] at ht
        subst ht
        rw [qsub_eq]
        linarith))
      (by rw [hoc2]; norm_num [ocr_rate_limit])
      (by rw [hcc2]; omega)
      (by rw [hcc2]; exact hc1)
  have hwc3 : st3.web_call_times = [now] := by rw [hw3, hwc2]
  have hweb4 := web_gate_pass now (pyLower c3_query) st3 (by decide) (by decide)
    (by decide) (by decide) (by decide)
    (qfilter_window now st3.web_call_times (by
      intro t ht
      rw [hwc3, List.mem_singleton] at ht
      subst ht
      rw [qsub_eq]
      linarith))
    (by rw [hwc3]; norm_num [web_rate_limit])
    (fun p hp => (hc3 p hp).1)
  have hcls : classify_query_type
      (calculate_keyword_score (pyLower c3_query) sca_screen_keywords)
      (calculate_keyword_score (pyLower c3_query) sca_web_keywords)
      (calculate_keyword_score (pyLower c3_query) sca_time_indicators)
      (calculate_keyword_score (pyLower c3_query) sca_technical_keywords)
      (calculate_keyword_score (pyLower c3_query) sca_conversational_keywords)
      (sca_question_words.any (fun w => pyContains (pyLower c3_query) w))
      (sca_demonstratives.any (fun w => pyContains (pyLower c3_query) w))
      (sca_current_reference.any (fun w => pyContains (pyLower c3_query) w))
      = (QueryType.GENERAL_QUESTION, Rat.divInt 1 2) := by decide
  have hmain : ∃ rr pp st', analyze_query now c3_query wi live initOptState
      = (⟨live, false, QueryType.GENERAL_QUESTION, Rat.divInt 1 2, rr, pp⟩, st') := by
    unfold analyze_query
    dsimp only
    split
    · next h => exact absurd h (by decide)
    · rw [heq1]
      try dsimp only
      rw [hweb1]
      try dsimp only
      rw [if_neg (by decide)]
      rw [hcls]
      try dsimp only
      unfold make_context_decision
      try dsimp only
      rw [heq3]
      try dsimp only
      rw [hweb4]
      try dsimp only
      cases live with
      | false =>
        rw [if_neg (by decide)]
        try dsimp only
        rw [if_neg (by decide)]
        try dsimp only
        rw [if_neg (by decide)]
        try dsimp only
        rw [if_neg (by decide)]
        exact ⟨_, _, _, rfl⟩
      | true =>
        rw [if_pos (show (true && decide (calculate_keyword_score (pyLower c3_query)
          sca_screen_keywords > Rat.divInt 1 50) && true) = true from by decide)]
        try dsimp only
        rw [if_neg (show ¬ (((pyContains (pyLower c3_query) "help me with this" ||
          pyContains (pyLower c3_query) "what is this") && true) = true) from by decide)]
        try dsimp only
        rw [if_neg (by decide)]
        exact ⟨_, _, _, rfl⟩
  obtain ⟨rr, pp, st4, he⟩ := hmain
  refine ⟨?_, ?_, ?_, ?_, ?_⟩
  · simp only [he]
  · simp only [he]
  · simp only [he]
  · decide
  · decide
